import Mathlib

/-!
The clang-for-clapack launcher.

A shallow embedding of `scripts/clang-for-clapack-launcher.c` and theorems about
its configuration resolution and argument-vector construction.

Conventions of the embedding:

* a C string (`char *` pointing at NUL-terminated text) is the list of its
  characters before the terminator (`CStr`); a `NULL` pointer is `none`;
* a character array that the code writes into (`out`) is the list of the
  characters written, terminator included; `cstr` reads it back as a C string;
* `PATH_MAX` comes from `<limits.h>` and is a parameter of every definition
  that uses it;
* the environment, the file system, the allocator, `stat` and `execv` are the
  fields of `World`.
-/

namespace ClangForClapack

/-- A C string: the characters before the terminating NUL. -/
abbrev CStr := List Char

/-- The terminating character of a C string. -/
def NUL : Char := Char.ofNat 0

/-- The newline character. -/
def NL : Char := Char.ofNat 10

/-- The path separator. -/
def SLASH : Char := Char.ofNat 47

/-- C `strlen` on a C string. -/
def strlen (s : CStr) : Nat := s.length

/-- C `strrchr(s, c)` on a C string: the offset of the last occurrence of `c`,
`none` for a null result. -/
def strrchr : CStr → Char → Option Nat
  | [], _ => none
  | a :: s, c =>
    match strrchr s c with
    | some i => some (i + 1)
    | none => if a = c then some 0 else none

/-- C `strchr(buf, c)` on a character array: the offset of the first occurrence
of `c` at or before the first NUL, `none` for a null result. -/
def strchr : List Char → Char → Option Nat
  | [], _ => none
  | a :: s, c =>
    if a = c then some 0
    else if a = NUL then none
    else (strchr s c).map (· + 1)

/-- The C string held by a character array: the characters before the first NUL. -/
def cstr (buf : List Char) : CStr := buf.takeWhile (· ≠ NUL)

/-- What `fopen(path, "r")` followed by reads can meet: a stream with the bytes of
the file, or a stream every read of which fails (a directory, an I/O error). -/
inductive File where
  | data (bytes : List Char)
  | ioError
  deriving DecidableEq, Repr

/-- File system: `fs path` is the result of `fopen(path, "r")`, `none` when the
open fails (no such file, no permission). -/
abbrev FS := CStr → Option File

/-- The characters `fgets` takes from the start of a stream when it may store at
most `n` of them: it stops after a newline (kept), at end of file, or after `n`
characters. -/
def fgets_line : Nat → List Char → List Char
  | 0, _ => []
  | _ + 1, [] => []
  | n + 1, c :: cs => if c = NL then [c] else c :: fgets_line n cs

/-- C `fgets(out, size, f)` on a freshly opened stream. The result is the content
written to `out` (the line and its terminator), `none` for a null result:
`size <= 0`, a read error, or end of file before any character was read. With
`size = 1` no character is requested and the empty string is stored. -/
def fgets (size : Nat) (f : File) : Option (List Char) :=
  if size = 0 then none
  else
    match f with
    | File.ioError => none
    | File.data bytes =>
      if size = 1 then some [NUL]
      else
        match fgets_line (size - 1) bytes with
        | [] => none
        | line => some (line ++ [NUL])

/-- Lines 15-16 of `read_line_file`: the length of the directory part of `argv0`,
its last `/` included; 0 when `strrchr` finds none. -/
def dir_len (argv0 : CStr) : Nat :=
  match strrchr argv0 SLASH with
  | some slash => slash + 1
  | none => 0

/-- Lines 17-21 of `read_line_file`: the name built in `path_file`, `none` when
the function returns -1 because the name does not fit. -/
def path_file (PATH_MAX : Nat) (argv0 suffix : CStr) : Option CStr :=
  let suf_len := strlen suffix
  if dir_len argv0 + suf_len ≥ PATH_MAX then none
  else some (argv0.take (dir_len argv0) ++ suffix)

/-- Lines 24-29 of `read_line_file`, on an opened stream: the C string left in
`out`, `none` for the return value -1. `out[size - 1] = 0` is at or past the
terminator stored by `fgets`; past it, `List.set` leaves the written part
unchanged, like the assignment leaves the string unchanged. -/
def read_line (size : Nat) (f : File) : Option CStr :=
  match fgets size f with
  | none => none
  | some out =>
    let out := out.set (size - 1) NUL
    let out := match strchr out NL with
      | some eol => out.set eol NUL
      | none => out
    some (cstr out)

/-- The function `read_line_file(argv0, suffix, out, size)`: `some s` when it
returns 0 and leaves the C string `s` in `out`, `none` when it returns -1. -/
def read_line_file (PATH_MAX : Nat) (fs : FS) (argv0 suffix : CStr) (size : Nat) :
    Option CStr :=
  match path_file PATH_MAX argv0 suffix with
  | none => none
  | some p =>
    match fs p with
    | none => none
    | some f => read_line size f

/-- Everything outside the program that `main` consults. -/
structure World where
  /-- The result of `getenv(name)`; `none` is a null result (variable unset). -/
  getenv : CStr → Option CStr
  /-- The result of `fopen(path, "r")` and the stream behind it. -/
  fs : FS
  /-- Whether `malloc` for `new_argv` returns a non-null pointer. -/
  malloc_ok : Bool
  /-- Whether `strdup(sysroot_buf)` returns a non-null pointer. -/
  strdup_sysroot_ok : Bool
  /-- Whether `strdup(resource_buf)` returns a non-null pointer. -/
  strdup_resource_ok : Bool
  /-- The result of `stat(path, &st)`: `some st_mode` when it returns 0. -/
  stat : CStr → Option Nat
  /-- The result of `execv(path, argv)`: `none` when the process image is replaced (the call
  does not return), `some e` when it fails and `strerror(errno)` is `e`. -/
  execv : CStr → List CStr → Option CStr

/-- How a run of `main` ends. -/
inductive Outcome where
  /-- The function `main` returned this status. -/
  | returned (status : Nat)
  /-- The call of `execv` replaced the process image. -/
  | replaced
  /-- A store past the end of the `malloc`ed `new_argv` (undefined behaviour). -/
  | overflow
  deriving DecidableEq, Repr

/-- The observable trace of a run of `main`. -/
structure Run where
  /-- The texts written to standard error, in order. -/
  stderr : List CStr
  /-- The `execv` call made, if any: its path and the argument vector it is given
  (the entries of `new_argv` before the first null pointer). -/
  launch : Option (CStr × List CStr)
  /-- How the run ends. -/
  outcome : Outcome
  deriving DecidableEq, Repr

/-- The name of the environment override. -/
def env_name : CStr := "CLAPACK_CLANG".toList

/-- The suffix of the compiler-path sibling file. -/
def path_suffix : CStr := "clang-for-clapack.path".toList

/-- The suffix of the sysroot sibling file. -/
def sysroot_suffix : CStr := "clang-for-clapack.sysroot".toList

/-- The suffix of the resource-dir sibling file. -/
def resource_suffix : CStr := "clang-for-clapack.resource-dir".toList

/-- The fixed target triple. -/
def target_triple : CStr := "aarch64-linux-android21".toList

/-- The diagnostic of line 42. -/
def missing_config_msg : CStr :=
  "clang-for-clapack: set CLAPACK_CLANG or create clang-for-clapack.path next to this binary\n".toList

/-- The diagnostic of line 51. -/
def malloc_failed_msg : CStr := "clang-for-clapack: malloc failed\n".toList

/-- Lines 36-40 of `main`: the pointer `clang` before the test of line 41. The
test `!clang || !*clang` is "null or empty". -/
def clang (PATH_MAX : Nat) (w : World) (argv : List CStr) : Option CStr :=
  let clang := w.getenv env_name
  if clang = none ∨ clang = some [] then
    match argv.head? with
    | none => clang
    | some argv0 =>
      match read_line_file PATH_MAX w.fs argv0 path_suffix PATH_MAX with
      | some path_buf => some path_buf
      | none => clang
  else clang

/-- The content of an optional buffer (`sysroot_buf`, `resource_buf`) when its
flag (`has_sysroot`, `has_resource`, lines 45-46) is set, `none` when the flag is
0: `argv[0]` is non-null, the read returns 0 and the first character is not NUL. -/
def optional_buf (PATH_MAX : Nat) (w : World) (argv : List CStr) (suffix : CStr) :
    Option CStr :=
  match argv.head? with
  | none => none
  | some argv0 =>
    match read_line_file PATH_MAX w.fs argv0 suffix PATH_MAX with
    | none => none
    | some buf => if buf ≠ [] then some buf else none

/-- C `strdup`: a copy of the string, or a null pointer when the allocation fails. -/
def strdup (ok : Bool) (s : CStr) : Option CStr := if ok then some s else none

/-- Lines 54-69 of `main`: the pointers stored in `new_argv[0 .. n-1]`, in order. -/
def new_argv (w : World) (clang : CStr) (sysroot resource : Option CStr)
    (argv : List CStr) : List (Option CStr) :=
  [some clang, some "-target".toList, some target_triple]
    ++ (match sysroot with
        | some sysroot_buf => [some "--sysroot".toList, strdup w.strdup_sysroot_ok sysroot_buf]
        | none => [])
    ++ (match resource with
        | some resource_buf =>
          [some "-resource-dir".toList, strdup w.strdup_resource_ok resource_buf]
        | none => [])
    ++ (argv.drop 1).map some

/-- The argument vector `execv` reads from a pointer array: the strings before
the first null pointer. -/
def argv_seen : List (Option CStr) → List CStr
  | some s :: rest => s :: argv_seen rest
  | _ => []

/-- The macro `S_ISREG(st_mode)` with the POSIX values of `S_IFMT` and `S_IFREG`. -/
def S_ISREG (st_mode : Nat) : Bool := st_mode &&& 0o170000 == 0o100000

/-- The `%d` rendering of a C truth value. -/
def fmt_flag (b : Bool) : CStr := if b then "1".toList else "0".toList

/-- Lines 71-80 of `main`: the pre-flight diagnostic, if one is printed. -/
def preflight (w : World) (clang : CStr) : List CStr :=
  let st := w.stat clang
  let exists_ := st.isSome
  let is_reg := match st with
    | some st_mode => S_ISREG st_mode
    | none => false
  let is_exe := match st with
    | some st_mode => st_mode &&& 0o111 != 0
    | none => false
  if !exists_ || !is_reg || !is_exe then
    ["clang-for-clapack: path=\x27".toList ++ clang ++ "\x27 exists=".toList ++ fmt_flag exists_
      ++ " regular=".toList ++ fmt_flag is_reg ++ " executable=".toList ++ fmt_flag is_exe
      ++ [NL]]
  else []

/-- Lines 71-86 of `main`: the pre-flight check, the `execv` call on the filled
`new_argv` and, when that call returns, the failure exit. -/
def exec_clang (w : World) (clang : CStr) (v : List (Option CStr)) : Run :=
  let warn := preflight w clang
  match w.execv clang (argv_seen v) with
  | none => { stderr := warn, launch := some (clang, argv_seen v), outcome := .replaced }
  | some err =>
    { stderr := warn ++ ["clang-for-clapack: execv failed for path=\x27".toList ++ clang
          ++ "\x27 ".toList, "(execv): ".toList ++ err ++ [NL]],
      launch := some (clang, argv_seen v),
      outcome := .returned 127 }

/-- The function `main(argc, argv)` with `argc = argv.length` (`argv[argc]` is the
null pointer, so `argv[0]` is null exactly when the list is empty). -/
def main (PATH_MAX : Nat) (w : World) (argv : List CStr) : Run :=
  let argc := argv.length
  match clang PATH_MAX w argv with
  | none => { stderr := [missing_config_msg], launch := none, outcome := .returned 127 }
  | some [] => { stderr := [missing_config_msg], launch := none, outcome := .returned 127 }
  | some clang =>
    let sysroot := optional_buf PATH_MAX w argv sysroot_suffix
    let resource := optional_buf PATH_MAX w argv resource_suffix
    let extra := 3 + (if sysroot.isSome then 2 else 0) + (if resource.isSome then 2 else 0)
    if !w.malloc_ok then
      { stderr := [malloc_failed_msg], launch := none, outcome := .returned 127 }
    else
      let v := new_argv w clang sysroot resource argv
      -- `new_argv[n] = NULL` stores at offset `v.length`; the array has `argc + extra` slots
      if v.length ≥ argc + extra then
        { stderr := [], launch := none, outcome := .overflow }
      else
        exec_clang w clang v

/-! ## Example inputs -/

/-- An executable location with a directory part. -/
def demo_argv0 : CStr := "/tools/clang-for-clapack-launcher".toList

/-- A caller argument list: argument 0 and a compile command. -/
def demo_argv : List CStr :=
  [demo_argv0, "-c".toList, "foo.c".toList, "-o".toList, "foo.o".toList]

/-- A file system that holds the given sibling files of `demo_argv0`; a `none`
argument leaves the file out. -/
def demo_fs (path sysroot resource : Option (List Char)) : FS := fun p =>
  if p = "/tools/clang-for-clapack.path".toList then path.map File.data
  else if p = "/tools/clang-for-clapack.sysroot".toList then sysroot.map File.data
  else if p = "/tools/clang-for-clapack.resource-dir".toList then resource.map File.data
  else none

/-- A world with the given override and file system, in which the allocations
succeed, nothing can be `stat`ed and `execv` succeeds. -/
def demo_world (env : Option CStr) (fs : FS) : World :=
  { getenv := fun name => if name = env_name then env else none,
    fs := fs,
    malloc_ok := true,
    strdup_sysroot_ok := true,
    strdup_resource_ok := true,
    stat := fun _ => none,
    execv := fun _ _ => none }

/-- An executable location whose directory part is 4081 characters long. -/
def long_argv0 : CStr := List.replicate 4080 (Char.ofNat 100) ++ SLASH :: "launcher".toList

/-- A file system in which every name opens a file holding `/ndk/clang`. -/
def full_fs : FS := fun _ => some (File.data "/ndk/clang\n".toList)

/-! ## Reading one line -/

/-- A character that belongs to the line `read_line` returns: neither the newline
nor the terminator. -/
def in_line (c : Char) : Bool := c != NL && c != NUL

/-- The reading of a sibling file taken word for word from the specification: the
characters before the first newline of the file, cut to at most `size - 1`
characters. It is compared with `read_line` below. -/
def spec_first_line (size : Nat) (bytes : List Char) : List Char :=
  (bytes.takeWhile (fun c => c != NL)).take (size - 1)

/-- Line 48 of `main`: the number of slots requested beyond `argc`. -/
def extra (sysroot resource : Option CStr) : Nat :=
  3 + (if sysroot.isSome then 2 else 0) + (if resource.isSome then 2 else 0)

/-- Line 49 of `main`: the number of `char *` slots of the `malloc` request,
`argc + extra`. -/
def slots_allocated (PATH_MAX : Nat) (w : World) (argv : List CStr) : Nat :=
  argv.length + extra (optional_buf PATH_MAX w argv sysroot_suffix)
    (optional_buf PATH_MAX w argv resource_suffix)

/-- Lines 54-70 of `main`: the number of slots stored into for the compiler path
`clang`, namely the entries `new_argv[0 .. n-1]` and the null pointer stored at
`new_argv[n]`. The highest offset stored to is one less. -/
def slots_written (PATH_MAX : Nat) (w : World) (clang : CStr) (argv : List CStr) : Nat :=
  (new_argv w clang (optional_buf PATH_MAX w argv sysroot_suffix)
    (optional_buf PATH_MAX w argv resource_suffix) argv).length + 1

/-- Whether the three pre-flight checks of lines 73-75 all pass on `clang`: `stat`
succeeds, the mode is that of a regular file, and an execute bit is set. -/
def preflight_ok (w : World) (clang : CStr) : Bool :=
  match w.stat clang with
  | some st_mode => S_ISREG st_mode && st_mode &&& 0o111 != 0
  | none => false

theorem fgets_line_length_le (n : Nat) (bytes : List Char) :
    (fgets_line n bytes).length ≤ n := by
  induction n generalizing bytes with
  | zero => simp [fgets_line]
  | succ n ih =>
    cases bytes with
    | nil => simp [fgets_line]
    | cons c cs =>
      simp only [fgets_line]
      split
      · simp
      · simpa using ih cs

theorem fgets_line_eq_nil (n : Nat) (bytes : List Char) (hn : 0 < n) :
    fgets_line n bytes = [] ↔ bytes = [] := by
  cases n with
  | zero => omega
  | succ n =>
    cases bytes with
    | nil => simp [fgets_line]
    | cons c cs =>
      simp only [fgets_line]
      split <;> simp

theorem set_terminator (line : List Char) (i : Nat) (h : line.length ≤ i) :
    (line ++ [NUL]).set i NUL = line ++ [NUL] := by
  induction line generalizing i with
  | nil => cases i <;> simp
  | cons c cs ih =>
    cases i with
    | zero => simp at h
    | succ i =>
      have h2 : cs.length ≤ i := by simpa using h
      simp [ih i h2]

theorem cstr_strip_newline (buf : List Char) :
    cstr (match strchr buf NL with
      | some eol => buf.set eol NUL
      | none => buf) = buf.takeWhile in_line := by
  induction buf with
  | nil => simp [strchr, cstr]
  | cons a s ih =>
    by_cases h1 : a = NL
    · subst h1
      simp [strchr, cstr, in_line]
    · by_cases h2 : a = NUL
      · subst h2
        simp [strchr, cstr, in_line, h1]
      · have ha : in_line a = true := by simp [in_line, h1, h2]
        simp only [strchr, h1, h2, if_false]
        cases hs : strchr s NL with
        | none =>
          rw [hs] at ih
          simp only [Option.map_none']
          simp only [cstr] at ih ⊢
          rw [List.takeWhile_cons, List.takeWhile_cons]
          simp only [ha, if_true]
          simp only [ne_eq, h2, not_false_eq_true, decide_True, if_true]
          rw [ih]
        | some i =>
          rw [hs] at ih
          simp only [Option.map_some', List.set_cons_succ]
          simp only [cstr] at ih ⊢
          rw [List.takeWhile_cons, List.takeWhile_cons]
          simp only [ha, if_true]
          simp only [ne_eq, h2, not_false_eq_true, decide_True, if_true]
          rw [ih]

theorem takeWhile_fgets_line (n : Nat) (bytes : List Char) :
    (fgets_line n bytes).takeWhile in_line = (bytes.take n).takeWhile in_line := by
  induction n generalizing bytes with
  | zero => simp [fgets_line]
  | succ n ih =>
    cases bytes with
    | nil => simp [fgets_line]
    | cons c cs =>
      simp only [fgets_line, List.take_succ_cons]
      by_cases h1 : c = NL
      · subst h1
        simp [in_line]
      · simp only [h1, if_false, List.takeWhile_cons, ih cs]

theorem takeWhile_append_terminator (line : List Char) :
    (line ++ [NUL]).takeWhile in_line = line.takeWhile in_line := by
  induction line with
  | nil => simp [in_line]
  | cons c cs ih =>
    simp only [List.cons_append, List.takeWhile_cons, ih]

/-- The value of `read_line` on a readable stream, for a buffer of two or more
characters: nothing at end of file, otherwise the part of the first `size - 1`
bytes that precedes the first newline or NUL. -/
theorem read_line_data (size : Nat) (bytes : List Char) (hsize : 2 ≤ size) :
    read_line size (File.data bytes) =
      if bytes = [] then none
      else some ((bytes.take (size - 1)).takeWhile in_line) := by
  have h0 : size ≠ 0 := by omega
  have h1 : size ≠ 1 := by omega
  simp only [read_line, fgets, h0, h1, if_false]
  by_cases hb : bytes = []
  · subst hb
    have : fgets_line (size - 1) [] = [] := (fgets_line_eq_nil _ _ (by omega)).2 rfl
    simp [this]
  · have hne : fgets_line (size - 1) bytes ≠ [] :=
      fun h => hb ((fgets_line_eq_nil _ _ (by omega)).1 h)
    simp only [hb, if_false]
    cases hl : fgets_line (size - 1) bytes with
    | nil => exact absurd hl hne
    | cons c cs =>
      have hlen : (c :: cs).length ≤ size - 1 := hl ▸ fgets_line_length_le _ _
      rw [set_terminator _ _ hlen, cstr_strip_newline, takeWhile_append_terminator,
        ← hl, takeWhile_fgets_line]

/-! ## The sibling file name -/

theorem strrchr_of_not_mem (s : CStr) (c : Char) (h : c ∉ s) : strrchr s c = none := by
  induction s with
  | nil => rfl
  | cons a s ih =>
    have h1 : c ∉ s := fun hm => h (List.mem_cons_of_mem _ hm)
    have h2 : a ≠ c := fun e => h (e ▸ List.mem_cons_self _ _)
    simp [strrchr, ih h1, h2]

theorem strrchr_last (pre post : CStr) (c : Char) (h : c ∉ post) :
    strrchr (pre ++ c :: post) c = some pre.length := by
  induction pre with
  | nil => simp [strrchr, strrchr_of_not_mem post c h]
  | cons a pre ih => simp [strrchr, ih]

theorem dir_len_of_not_mem (x : CStr) (h : SLASH ∉ x) : dir_len x = 0 := by
  simp [dir_len, strrchr_of_not_mem x SLASH h]

theorem dir_len_last (pre post : CStr) (h : SLASH ∉ post) :
    dir_len (pre ++ SLASH :: post) = pre.length + 1 := by
  simp [dir_len, strrchr_last pre post SLASH h]

theorem path_file_eq (PATH_MAX : Nat) (x suffix q : CStr)
    (h : path_file PATH_MAX x suffix = some q) : q = x.take (dir_len x) ++ suffix := by
  unfold path_file at h
  simp only at h
  split at h
  · exact absurd h (by simp)
  · exact (Option.some.inj h).symm

/-- Two sibling files of one executable with different suffixes have different names. -/
theorem path_file_ne (PATH_MAX : Nat) (x s1 s2 q1 q2 : CStr) (hs : s1 ≠ s2)
    (h1 : path_file PATH_MAX x s1 = some q1) (h2 : path_file PATH_MAX x s2 = some q2) :
    q1 ≠ q2 := by
  rw [path_file_eq _ _ _ _ h1, path_file_eq _ _ _ _ h2]
  intro h
  exact hs (List.append_cancel_left h)

/-! ## The argument vector -/

theorem argv_seen_map_some (l : List CStr) : argv_seen (l.map some) = l := by
  induction l with
  | nil => rfl
  | cons a l ih => simp [argv_seen, ih]

theorem new_argv_length (w : World) (p : CStr) (s r : Option CStr) (argv : List CStr) :
    (new_argv w p s r argv).length =
      3 + (if s.isSome then 2 else 0) + (if r.isSome then 2 else 0) + (argv.length - 1) := by
  cases s <;> cases r <;> simp [new_argv] <;> omega

theorem argv_seen_new_argv (w : World) (p : CStr) (s r : Option CStr) (argv : List CStr) :
    argv_seen (new_argv w p s r argv) = p :: argv_seen ((new_argv w p s r argv).drop 1) :=
  rfl

theorem exec_clang_launch (w : World) (p : CStr) (v : List (Option CStr)) :
    (exec_clang w p v).launch = some (p, argv_seen v) := by
  unfold exec_clang
  cases w.execv p (argv_seen v) <;> rfl

/-- With a resolved compiler path, a successful `malloc` and a non-null `argv[0]`,
`main` reaches the `execv` call with the vector of `new_argv`. -/
theorem main_resolved (PATH_MAX : Nat) (w : World) (x : CStr) (rest : List CStr) (p : CStr)
    (hc : clang PATH_MAX w (x :: rest) = some p) (hp : p ≠ []) (hm : w.malloc_ok = true) :
    main PATH_MAX w (x :: rest) =
      exec_clang w p (new_argv w p (optional_buf PATH_MAX w (x :: rest) sysroot_suffix)
        (optional_buf PATH_MAX w (x :: rest) resource_suffix) (x :: rest)) := by
  cases p with
  | nil => exact absurd rfl hp
  | cons c cs =>
    unfold main
    simp only [hc, hm, Bool.not_true, Bool.false_eq_true, if_false]
    rw [if_neg]
    rw [new_argv_length]
    simp only [List.length_cons]
    omega

/-- Without a usable compiler path `main` prints the instruction and returns 127. -/
theorem main_unresolved (PATH_MAX : Nat) (w : World) (argv : List CStr)
    (hc : clang PATH_MAX w argv = none ∨ clang PATH_MAX w argv = some []) :
    main PATH_MAX w argv =
      { stderr := [missing_config_msg], launch := none, outcome := Outcome.returned 127 } := by
  unfold main
  rcases hc with hc | hc <;> simp only [hc]

/-! ## Resolution of the three settings -/

theorem clang_of_env (PATH_MAX : Nat) (w : World) (argv : List CStr) (e : CStr)
    (henv : w.getenv env_name = some e) (hne : e ≠ []) :
    clang PATH_MAX w argv = some e := by
  unfold clang
  simp [henv, hne]

theorem clang_of_file (PATH_MAX : Nat) (w : World) (x : CStr) (rest : List CStr)
    (henv : w.getenv env_name = none ∨ w.getenv env_name = some []) :
    clang PATH_MAX w (x :: rest) =
      match read_line_file PATH_MAX w.fs x path_suffix PATH_MAX with
      | some path_buf => some path_buf
      | none => w.getenv env_name := by
  unfold clang
  rcases henv with henv | henv <;> simp [henv]

theorem optional_buf_eq (PATH_MAX : Nat) (w : World) (x : CStr) (rest : List CStr)
    (suffix : CStr) :
    optional_buf PATH_MAX w (x :: rest) suffix =
      match read_line_file PATH_MAX w.fs x suffix PATH_MAX with
      | none => none
      | some buf => if buf ≠ [] then some buf else none := rfl

theorem optional_buf_some (PATH_MAX : Nat) (w : World) (x : CStr) (rest : List CStr)
    (suffix s : CStr) (hr : read_line_file PATH_MAX w.fs x suffix PATH_MAX = some s)
    (hne : s ≠ []) : optional_buf PATH_MAX w (x :: rest) suffix = some s := by
  rw [optional_buf_eq, hr]
  simp [hne]

theorem optional_buf_unset (PATH_MAX : Nat) (w : World) (x : CStr) (rest : List CStr)
    (suffix : CStr)
    (hr : read_line_file PATH_MAX w.fs x suffix PATH_MAX = none
      ∨ read_line_file PATH_MAX w.fs x suffix PATH_MAX = some []) :
    optional_buf PATH_MAX w (x :: rest) suffix = none := by
  rw [optional_buf_eq]
  rcases hr with hr | hr <;> simp [hr]

theorem read_line_file_absent (PATH_MAX : Nat) (fs : FS) (x suffix : CStr) (size : Nat)
    (h : ∀ q, path_file PATH_MAX x suffix = some q → fs q = none) :
    read_line_file PATH_MAX fs x suffix size = none := by
  unfold read_line_file
  cases hq : path_file PATH_MAX x suffix with
  | none => rfl
  | some q => simp [h q hq]

theorem read_line_file_at (PATH_MAX : Nat) (fs : FS) (x suffix q : CStr) (size : Nat)
    (hq : path_file PATH_MAX x suffix = some q) :
    read_line_file PATH_MAX fs x suffix size = (fs q).bind (read_line size) := by
  unfold read_line_file
  simp only [hq]
  cases h : fs q <;> simp

/-- On an empty stream and on a stream holding one blank line, `read_line` fails
or leaves the empty string. -/
theorem read_line_blank (size : Nat) (bytes : List Char) (h : bytes = [] ∨ bytes = [NL]) :
    read_line size (File.data bytes) = none ∨ read_line size (File.data bytes) = some [] := by
  rcases Nat.lt_or_ge size 2 with hs | hs
  · have h01 : size = 0 ∨ size = 1 := by omega
    rcases h01 with h0 | h1
    · subst h0
      exact Or.inl rfl
    · subst h1
      exact Or.inr (by simp [read_line, fgets, strchr, cstr, NUL, NL])
  · rw [read_line_data size bytes hs]
    rcases h with h | h
    · subst h
      exact Or.inl rfl
    · subst h
      refine Or.inr ?_
      have h1 : List.take (size - 1) [NL] = [NL] := List.take_of_length_le (by simp; omega)
      simp [h1, in_line]

/-- Removing one sibling file leaves the reads of the sibling files with another
suffix unchanged. -/
theorem read_line_file_remove (PATH_MAX : Nat) (fs : FS) (x suffix q other : CStr)
    (size : Nat) (hq : path_file PATH_MAX x suffix = some q) (hne : other ≠ suffix) :
    read_line_file PATH_MAX (fun p => if p = q then none else fs p) x other size =
      read_line_file PATH_MAX fs x other size := by
  cases ho : path_file PATH_MAX x other with
  | none => simp [read_line_file, ho]
  | some q2 =>
    have hqq : q2 ≠ q := path_file_ne PATH_MAX x other suffix q2 q hne ho hq
    rw [read_line_file_at _ _ _ _ _ _ ho, read_line_file_at _ _ _ _ _ _ ho]
    simp [hqq]

/-- The run of `main` depends on the file system only through the three settings
resolved from it. -/
theorem main_congr_fs (PATH_MAX : Nat) (w : World) (fs2 : FS) (argv : List CStr)
    (h1 : clang PATH_MAX { w with fs := fs2 } argv = clang PATH_MAX w argv)
    (h2 : optional_buf PATH_MAX { w with fs := fs2 } argv sysroot_suffix =
      optional_buf PATH_MAX w argv sysroot_suffix)
    (h3 : optional_buf PATH_MAX { w with fs := fs2 } argv resource_suffix =
      optional_buf PATH_MAX w argv resource_suffix) :
    main PATH_MAX { w with fs := fs2 } argv = main PATH_MAX w argv := by
  unfold main
  rw [h1, h2, h3]
  rfl

theorem clang_congr_fs (PATH_MAX : Nat) (w : World) (fs2 : FS) (x : CStr) (rest : List CStr)
    (h : read_line_file PATH_MAX fs2 x path_suffix PATH_MAX =
      read_line_file PATH_MAX w.fs x path_suffix PATH_MAX) :
    clang PATH_MAX { w with fs := fs2 } (x :: rest) = clang PATH_MAX w (x :: rest) := by
  unfold clang
  simp only [List.head?_cons, h]

theorem optional_buf_congr_fs (PATH_MAX : Nat) (w : World) (fs2 : FS) (x : CStr)
    (rest : List CStr) (suffix : CStr)
    (h : read_line_file PATH_MAX fs2 x suffix PATH_MAX =
      read_line_file PATH_MAX w.fs x suffix PATH_MAX) :
    optional_buf PATH_MAX { w with fs := fs2 } (x :: rest) suffix =
      optional_buf PATH_MAX w (x :: rest) suffix := by
  rw [optional_buf_eq, optional_buf_eq]
  simp only [h]

/-- The four ways a run of `main` can go. -/
theorem main_cases (PATH_MAX : Nat) (w : World) (argv : List CStr) :
    ((clang PATH_MAX w argv = none ∨ clang PATH_MAX w argv = some []) ∧
      main PATH_MAX w argv =
        { stderr := [missing_config_msg], launch := none, outcome := Outcome.returned 127 })
    ∨ (w.malloc_ok = false ∧ main PATH_MAX w argv =
        { stderr := [malloc_failed_msg], launch := none, outcome := Outcome.returned 127 })
    ∨ main PATH_MAX w argv = { stderr := [], launch := none, outcome := Outcome.overflow }
    ∨ ∃ p v, clang PATH_MAX w argv = some p ∧ p ≠ [] ∧ w.malloc_ok = true
        ∧ main PATH_MAX w argv = exec_clang w p v := by
  cases hc : clang PATH_MAX w argv with
  | none => exact Or.inl ⟨Or.inl rfl, main_unresolved PATH_MAX w argv (Or.inl hc)⟩
  | some p =>
    cases p with
    | nil => exact Or.inl ⟨Or.inr rfl, main_unresolved PATH_MAX w argv (Or.inr hc)⟩
    | cons c cs =>
      refine Or.inr ?_
      unfold main
      simp only [hc]
      cases hm : w.malloc_ok with
      | false => exact Or.inl ⟨rfl, by simp⟩
      | true =>
        refine Or.inr ?_
        simp only [Bool.not_true, Bool.false_eq_true, if_false]
        exact (ite_eq_or_eq _ _ _).elim (fun h => Or.inl h)
          (fun h => Or.inr ⟨_, _, rfl, List.cons_ne_nil c cs, trivial, h⟩)

theorem exec_clang_outcome (w : World) (p : CStr) (v : List (Option CStr)) :
    (exec_clang w p v).outcome =
      match w.execv p (argv_seen v) with
      | none => Outcome.replaced
      | some _ => Outcome.returned 127 := by
  unfold exec_clang
  cases w.execv p (argv_seen v) <;> rfl

theorem optional_buf_blank (PATH_MAX : Nat) (w : World) (x : CStr) (rest : List CStr)
    (suffix q : CStr) (hq : path_file PATH_MAX x suffix = some q)
    (hblank : w.fs q = some (File.data []) ∨ w.fs q = some (File.data [NL])) :
    optional_buf PATH_MAX { w with fs := fun p => if p = q then none else w.fs p }
        (x :: rest) suffix = optional_buf PATH_MAX w (x :: rest) suffix := by
  have hl : optional_buf PATH_MAX { w with fs := fun p => if p = q then none else w.fs p }
      (x :: rest) suffix = none := by
    apply optional_buf_unset
    refine Or.inl (read_line_file_absent _ _ _ _ _ ?_)
    intro q2 hq2
    have : q2 = q := Option.some.inj (hq2.symm.trans hq)
    simp [this]
  have hr : optional_buf PATH_MAX w (x :: rest) suffix = none := by
    apply optional_buf_unset
    rw [read_line_file_at _ _ _ _ _ _ hq]
    rcases hblank with h | h
    · rw [h]
      exact read_line_blank PATH_MAX [] (Or.inl rfl)
    · rw [h]
      exact read_line_blank PATH_MAX [NL] (Or.inr rfl)
  rw [hl, hr]

theorem path_file_demo (PATH_MAX : Nat) (suffix : CStr) (h : 7 + suffix.length < PATH_MAX) :
    path_file PATH_MAX demo_argv0 suffix = some ("/tools/".toList ++ suffix) := by
  have hd : dir_len demo_argv0 = 7 := by decide
  unfold path_file
  simp only [hd, strlen]
  rw [if_neg (by omega)]
  rfl

/-! ## The claims -/

/-- C1: with the override unset, a non-empty compiler path `p` read from the
compiler-path sibling file, the sysroot and resource-dir sibling files absent and
`malloc` succeeding, `execv` is called on `p` with the vector
`[p, "-target", "aarch64-linux-android21"]` followed by the caller arguments after
argument 0, unchanged and in order. -/
theorem C1_vector_without_optional_files (PATH_MAX : Nat) (w : World) (x : CStr)
    (rest : List CStr) (p : CStr)
    (henv : w.getenv env_name = none)
    (hp : read_line_file PATH_MAX w.fs x path_suffix PATH_MAX = some p)
    (hne : p ≠ [])
    (hsys : ∀ q, path_file PATH_MAX x sysroot_suffix = some q → w.fs q = none)
    (hres : ∀ q, path_file PATH_MAX x resource_suffix = some q → w.fs q = none)
    (hm : w.malloc_ok = true) :
    (main PATH_MAX w (x :: rest)).launch =
      some (p, [p, "-target".toList, "aarch64-linux-android21".toList] ++ rest) := by
  have hc : clang PATH_MAX w (x :: rest) = some p := by
    rw [clang_of_file PATH_MAX w x rest (Or.inl henv), hp]
  have h1 := optional_buf_unset PATH_MAX w x rest sysroot_suffix
    (Or.inl (read_line_file_absent _ _ _ _ _ hsys))
  have h2 := optional_buf_unset PATH_MAX w x rest resource_suffix
    (Or.inl (read_line_file_absent _ _ _ _ _ hres))
  rw [main_resolved PATH_MAX w x rest p hc hne hm, exec_clang_launch, h1, h2]
  simp [new_argv, argv_seen, argv_seen_map_some, target_triple]

/-- Witness of C1: the launcher in `/tools` with only the compiler-path file. -/
theorem C1_vector_without_optional_files_witness :
    (main 4096 (demo_world none (demo_fs (some "/ndk/clang\n".toList) none none))
        demo_argv).launch =
      some ("/ndk/clang".toList,
        ["/ndk/clang".toList, "-target".toList, "aarch64-linux-android21".toList]
          ++ ["-c".toList, "foo.c".toList, "-o".toList, "foo.o".toList]) :=
  C1_vector_without_optional_files 4096
    (demo_world none (demo_fs (some "/ndk/clang\n".toList) none none)) demo_argv0
    ["-c".toList, "foo.c".toList, "-o".toList, "foo.o".toList] "/ndk/clang".toList
    (by decide) (by decide) (by decide)
    (fun q hq => by rw [path_file_eq _ _ _ _ hq]; decide)
    (fun q hq => by rw [path_file_eq _ _ _ _ hq]; decide)
    rfl

/-- The vector with both optional settings, when the three allocations succeed:
with the override unset or empty and non-empty lines `p`, `s` and `r` read from the
compiler-path, sysroot and resource-dir sibling files, `execv` is called on `p`
with the vector
`[p, "-target", "aarch64-linux-android21", "--sysroot", s, "-resource-dir", r]`
followed by the caller arguments after argument 0. -/
theorem vector_of_both_optional_files (PATH_MAX : Nat) (w : World) (x : CStr)
    (rest : List CStr) (p s r : CStr)
    (henv : w.getenv env_name = none ∨ w.getenv env_name = some [])
    (hp : read_line_file PATH_MAX w.fs x path_suffix PATH_MAX = some p) (hpne : p ≠ [])
    (hs : read_line_file PATH_MAX w.fs x sysroot_suffix PATH_MAX = some s) (hsne : s ≠ [])
    (hr : read_line_file PATH_MAX w.fs x resource_suffix PATH_MAX = some r) (hrne : r ≠ [])
    (hm : w.malloc_ok = true) (hds : w.strdup_sysroot_ok = true)
    (hdr : w.strdup_resource_ok = true) :
    (main PATH_MAX w (x :: rest)).launch =
      some (p, [p, "-target".toList, "aarch64-linux-android21".toList,
        "--sysroot".toList, s, "-resource-dir".toList, r] ++ rest) := by
  have hc : clang PATH_MAX w (x :: rest) = some p := by
    rw [clang_of_file PATH_MAX w x rest henv, hp]
  rw [main_resolved PATH_MAX w x rest p hc hpne hm, exec_clang_launch,
    optional_buf_some PATH_MAX w x rest sysroot_suffix s hs hsne,
    optional_buf_some PATH_MAX w x rest resource_suffix r hr hrne]
  simp [new_argv, argv_seen, argv_seen_map_some, target_triple, strdup, hds, hdr]

/-- An instance of the vector with both optional settings: the launcher in `/tools`
with all three sibling files. -/
theorem vector_of_both_optional_files_example :
    (main 4096 (demo_world none (demo_fs (some "/ndk/clang\n".toList)
        (some "/ndk/sysroot\n".toList) (some "/ndk/lib/clang/17".toList))) demo_argv).launch =
      some ("/ndk/clang".toList,
        ["/ndk/clang".toList, "-target".toList, "aarch64-linux-android21".toList,
          "--sysroot".toList, "/ndk/sysroot".toList,
          "-resource-dir".toList, "/ndk/lib/clang/17".toList]
          ++ ["-c".toList, "foo.c".toList, "-o".toList, "foo.o".toList]) :=
  vector_of_both_optional_files 4096
    (demo_world none (demo_fs (some "/ndk/clang\n".toList)
      (some "/ndk/sysroot\n".toList) (some "/ndk/lib/clang/17".toList))) demo_argv0
    ["-c".toList, "foo.c".toList, "-o".toList, "foo.o".toList]
    "/ndk/clang".toList "/ndk/sysroot".toList "/ndk/lib/clang/17".toList
    (Or.inl (by decide)) (by decide) (by decide) (by decide) (by decide) (by decide)
    (by decide) rfl rfl rfl

/-- C3: when `CLAPACK_CLANG` is set to a non-empty value `e`, then whatever the
executable location, the file system and the caller arguments are, the resolved
compiler path is `e`; when moreover `argv[0]` is present and `malloc` succeeds,
`execv` is called on `e` with a vector whose element 0 is `e`. -/
theorem C3_override_wins (PATH_MAX : Nat) (w : World) (argv : List CStr) (e : CStr)
    (henv : w.getenv env_name = some e) (hne : e ≠ []) :
    clang PATH_MAX w argv = some e ∧
      (argv ≠ [] → w.malloc_ok = true →
        ∃ args, (main PATH_MAX w argv).launch = some (e, e :: args)) := by
  have hc := clang_of_env PATH_MAX w argv e henv hne
  refine ⟨hc, ?_⟩
  intro hargv hm
  cases argv with
  | nil => exact absurd rfl hargv
  | cons x rest =>
    rw [main_resolved PATH_MAX w x rest e hc hne hm, exec_clang_launch]
    rw [argv_seen_new_argv]
    exact ⟨_, rfl⟩

/-- Witness of C3: the override set while the compiler-path file names another
compiler. -/
theorem C3_override_wins_witness :
    clang 4096 (demo_world (some "/env/clang".toList)
        (demo_fs (some "/ndk/clang\n".toList) none none)) demo_argv
      = some "/env/clang".toList ∧
    (demo_argv ≠ [] → (demo_world (some "/env/clang".toList)
        (demo_fs (some "/ndk/clang\n".toList) none none)).malloc_ok = true →
      ∃ args, (main 4096 (demo_world (some "/env/clang".toList)
        (demo_fs (some "/ndk/clang\n".toList) none none)) demo_argv).launch
          = some ("/env/clang".toList, "/env/clang".toList :: args)) :=
  C3_override_wins 4096 (demo_world (some "/env/clang".toList)
    (demo_fs (some "/ndk/clang\n".toList) none none)) demo_argv "/env/clang".toList
    (by decide) (by decide)

/-- C4: when `CLAPACK_CLANG` is unset or empty and the compiler-path sibling file
cannot be read or yields an empty line (or there is no `argv[0]` to locate it),
`main` writes one diagnostic that names both `CLAPACK_CLANG` and
`clang-for-clapack.path`, makes no `execv` call and returns 127. -/
theorem C4_missing_compiler_config (PATH_MAX : Nat) (w : World) (argv : List CStr)
    (henv : w.getenv env_name = none ∨ w.getenv env_name = some [])
    (hfile : ∀ x, argv.head? = some x →
      read_line_file PATH_MAX w.fs x path_suffix PATH_MAX = none
        ∨ read_line_file PATH_MAX w.fs x path_suffix PATH_MAX = some []) :
    ∃ msg, main PATH_MAX w argv =
        { stderr := [msg], launch := none, outcome := Outcome.returned 127 }
      ∧ "CLAPACK_CLANG".toList <:+: msg ∧ "clang-for-clapack.path".toList <:+: msg := by
  refine ⟨missing_config_msg, ?_, ?_, ?_⟩
  · apply main_unresolved
    cases argv with
    | nil =>
      unfold clang
      rcases henv with henv | henv <;> simp [henv]
    | cons x rest =>
      rw [clang_of_file PATH_MAX w x rest henv]
      rcases hfile x rfl with h | h <;> rw [h]
      · exact henv
      · exact Or.inr rfl
  · exact ⟨"clang-for-clapack: set ".toList,
      " or create clang-for-clapack.path next to this binary\n".toList, by decide⟩
  · exact ⟨"clang-for-clapack: set CLAPACK_CLANG or create ".toList,
      " next to this binary\n".toList, by decide⟩

/-- Witness of C4: no override and no compiler-path file, with both optional files
present. -/
theorem C4_missing_compiler_config_witness :
    ∃ msg, main 4096 (demo_world none (demo_fs none (some "/ndk/sysroot\n".toList)
          (some "/ndk/lib/clang/17".toList))) demo_argv =
        { stderr := [msg], launch := none, outcome := Outcome.returned 127 }
      ∧ "CLAPACK_CLANG".toList <:+: msg ∧ "clang-for-clapack.path".toList <:+: msg :=
  C4_missing_compiler_config 4096 (demo_world none (demo_fs none
    (some "/ndk/sysroot\n".toList) (some "/ndk/lib/clang/17".toList))) demo_argv
    (Or.inl (by decide)) (fun x hx => Or.inl (by
      have hx2 : x = demo_argv0 := by
        simp only [demo_argv, List.head?_cons, Option.some.injEq] at hx
        exact hx.symm
      subst hx2
      decide))

/-- C5: for a non-empty `s` without newline and NUL and shorter than
`PATH_MAX - 1`, reading a sibling file whose content is `s` or `s` followed by one
newline returns 0 and leaves exactly `s` in the buffer. -/
theorem C5_read_strips_trailing_newline (PATH_MAX : Nat) (fs : FS) (x suffix q s : CStr)
    (hq : path_file PATH_MAX x suffix = some q)
    (hne : s ≠ []) (hnl : NL ∉ s) (hnul : NUL ∉ s) (hlen : s.length < PATH_MAX - 1)
    (hfile : fs q = some (File.data s) ∨ fs q = some (File.data (s ++ [NL]))) :
    read_line_file PATH_MAX fs x suffix PATH_MAX = some s := by
  have hall : ∀ c ∈ s, in_line c = true := by
    intro c hc
    have h1 : c ≠ NL := fun e => hnl (e ▸ hc)
    have h2 : c ≠ NUL := fun e => hnul (e ▸ hc)
    simp [in_line, h1, h2]
  have htw : s.takeWhile in_line = s := List.takeWhile_eq_self_iff.2 hall
  rw [read_line_file_at PATH_MAX fs x suffix q PATH_MAX hq]
  rcases hfile with h | h
  · rw [h, Option.some_bind, read_line_data PATH_MAX s (by omega), if_neg hne,
      List.take_of_length_le (by omega), htw]
  · have hne2 : s ++ [NL] ≠ [] := by simp
    rw [h, Option.some_bind, read_line_data PATH_MAX (s ++ [NL]) (by omega), if_neg hne2,
      List.take_of_length_le (by simp; omega), List.takeWhile_append_of_pos hall]
    simp [in_line]

/-- Witness of C5: the content `"/opt/ndk/clang\n"` yields `"/opt/ndk/clang"`. -/
theorem C5_read_strips_trailing_newline_witness :
    read_line_file 4096 (demo_fs (some "/opt/ndk/clang\n".toList) none none) demo_argv0
      path_suffix 4096 = some "/opt/ndk/clang".toList :=
  C5_read_strips_trailing_newline 4096 (demo_fs (some "/opt/ndk/clang\n".toList) none none)
    demo_argv0 path_suffix "/tools/clang-for-clapack.path".toList "/opt/ndk/clang".toList
    (by decide) (by decide) (by decide) (by decide) (by decide) (Or.inr (by decide))

/-- C6: for the sysroot file and for the resource-dir file alike, a run in which
that sibling file is empty or holds one blank line is the same run (same `execv`
path and vector, same diagnostics, same outcome) as with that file removed,
whatever the other files, the override and the caller arguments are. -/
theorem C6_blank_optional_file_is_unset (PATH_MAX : Nat) (w : World) (x : CStr)
    (rest : List CStr) (suffix q : CStr)
    (hsuf : suffix = sysroot_suffix ∨ suffix = resource_suffix)
    (hq : path_file PATH_MAX x suffix = some q)
    (hblank : w.fs q = some (File.data []) ∨ w.fs q = some (File.data [NL])) :
    main PATH_MAX w (x :: rest) =
      main PATH_MAX { w with fs := fun p => if p = q then none else w.fs p } (x :: rest) := by
  have hps : path_suffix ≠ sysroot_suffix := by decide
  have hpr : path_suffix ≠ resource_suffix := by decide
  have hsr : sysroot_suffix ≠ resource_suffix := by decide
  symm
  apply main_congr_fs
  · apply clang_congr_fs
    apply read_line_file_remove PATH_MAX w.fs x suffix q path_suffix PATH_MAX hq
    rcases hsuf with h | h <;> rw [h]
    · exact hps
    · exact hpr
  · rcases hsuf with h | h
    · subst h
      exact optional_buf_blank PATH_MAX w x rest sysroot_suffix q hq hblank
    · subst h
      apply optional_buf_congr_fs
      exact read_line_file_remove PATH_MAX w.fs x resource_suffix q sysroot_suffix PATH_MAX hq hsr
  · rcases hsuf with h | h
    · subst h
      apply optional_buf_congr_fs
      exact read_line_file_remove PATH_MAX w.fs x sysroot_suffix q resource_suffix PATH_MAX hq
        hsr.symm
    · subst h
      exact optional_buf_blank PATH_MAX w x rest resource_suffix q hq hblank

/-- Witness of C6: a sysroot file holding one blank line, next to a compiler-path
file and a resource-dir file. -/
theorem C6_blank_optional_file_is_unset_witness :
    main 4096 (demo_world none (demo_fs (some "/ndk/clang\n".toList) (some [NL])
        (some "/ndk/lib/clang/17".toList))) (demo_argv0 :: ["-c".toList]) =
      main 4096 { demo_world none (demo_fs (some "/ndk/clang\n".toList) (some [NL])
          (some "/ndk/lib/clang/17".toList)) with
        fs := fun p => if p = "/tools/clang-for-clapack.sysroot".toList then none
          else (demo_world none (demo_fs (some "/ndk/clang\n".toList) (some [NL])
            (some "/ndk/lib/clang/17".toList))).fs p } (demo_argv0 :: ["-c".toList]) :=
  C6_blank_optional_file_is_unset 4096 (demo_world none (demo_fs (some "/ndk/clang\n".toList)
    (some [NL]) (some "/ndk/lib/clang/17".toList))) demo_argv0 ["-c".toList] sysroot_suffix
    "/tools/clang-for-clapack.sysroot".toList (Or.inl rfl) (by decide) (Or.inr (by decide))

/-- C7: whenever the name fits the buffer, the file that `read_line_file` opens is
the part of the executable location up to and including its last `/`, followed by
the suffix, so nothing after the last `/` enters the name; without any `/` it is
the bare suffix. -/
theorem C7_sibling_path (PATH_MAX : Nat) (fs : FS) (x suffix : CStr) (size : Nat) :
    (∀ pre post, x = pre ++ SLASH :: post → SLASH ∉ post →
        pre.length + 1 + suffix.length < PATH_MAX →
        path_file PATH_MAX x suffix = some (pre ++ SLASH :: suffix)
          ∧ read_line_file PATH_MAX fs x suffix size =
            (fs (pre ++ SLASH :: suffix)).bind (read_line size))
    ∧ (SLASH ∉ x → suffix.length < PATH_MAX →
        path_file PATH_MAX x suffix = some suffix
          ∧ read_line_file PATH_MAX fs x suffix size = (fs suffix).bind (read_line size)) := by
  constructor
  · intro pre post hx hpost hfit
    have hd : dir_len x = pre.length + 1 := by rw [hx]; exact dir_len_last pre post hpost
    have hpf : path_file PATH_MAX x suffix = some (pre ++ SLASH :: suffix) := by
      unfold path_file
      simp only [hd, strlen]
      rw [if_neg (by omega), hx]
      simp [List.take_append_eq_append_take]
    exact ⟨hpf, read_line_file_at PATH_MAX fs x suffix _ size hpf⟩
  · intro hx hfit
    have hd : dir_len x = 0 := dir_len_of_not_mem x hx
    have hpf : path_file PATH_MAX x suffix = some suffix := by
      unfold path_file
      simp only [hd, strlen]
      rw [if_neg (by omega)]
      simp
    exact ⟨hpf, read_line_file_at PATH_MAX fs x suffix _ size hpf⟩

/-- Witness of C7: a location with two directory levels, and a bare name. -/
theorem C7_sibling_path_witness :
    (path_file 4096 "/opt/bin/launcher".toList path_suffix
        = some ("/opt/bin".toList ++ SLASH :: path_suffix)
      ∧ read_line_file 4096 (demo_fs none none none) "/opt/bin/launcher".toList path_suffix 4096
        = (demo_fs none none none ("/opt/bin".toList ++ SLASH :: path_suffix)).bind
            (read_line 4096))
    ∧ (path_file 4096 "launcher".toList path_suffix = some path_suffix
      ∧ read_line_file 4096 (demo_fs none none none) "launcher".toList path_suffix 4096
        = (demo_fs none none none path_suffix).bind (read_line 4096)) :=
  ⟨(C7_sibling_path 4096 (demo_fs none none none) "/opt/bin/launcher".toList path_suffix
      4096).1 "/opt/bin".toList "launcher".toList (by decide) (by decide) (by decide),
    (C7_sibling_path 4096 (demo_fs none none none) "launcher".toList path_suffix 4096).2
      (by decide) (by decide)⟩

/-- C8: the scenario of the launcher at `/tools/clang-for-clapack-launcher`, no
override, `/tools/clang-for-clapack.path` containing `/ndk/clang` (with or without
a final newline), no sysroot and resource-dir files, and the caller arguments
`-c foo.c -o foo.o`: `execv` is called on `/ndk/clang` with the vector
`/ndk/clang -target aarch64-linux-android21 -c foo.c -o foo.o`. -/
theorem C8_scenario (PATH_MAX : Nat) (w : World) (hmax : 64 ≤ PATH_MAX)
    (henv : w.getenv env_name = none)
    (hfs : w.fs = demo_fs (some "/ndk/clang".toList) none none
      ∨ w.fs = demo_fs (some "/ndk/clang\n".toList) none none)
    (hm : w.malloc_ok = true) :
    (main PATH_MAX w ["/tools/clang-for-clapack-launcher".toList, "-c".toList,
        "foo.c".toList, "-o".toList, "foo.o".toList]).launch =
      some ("/ndk/clang".toList, ["/ndk/clang".toList, "-target".toList,
        "aarch64-linux-android21".toList, "-c".toList, "foo.c".toList, "-o".toList,
        "foo.o".toList]) := by
  have hq : path_file PATH_MAX demo_argv0 path_suffix
      = some "/tools/clang-for-clapack.path".toList := by
    rw [path_file_demo PATH_MAX path_suffix (by simp [path_suffix]; omega)]
    rfl
  have hread : read_line_file PATH_MAX w.fs demo_argv0 path_suffix PATH_MAX
      = some "/ndk/clang".toList := by
    rw [read_line_file_at _ _ _ _ _ _ hq]
    rcases hfs with h | h
    · rw [h]
      have hf : demo_fs (some "/ndk/clang".toList) none none
          "/tools/clang-for-clapack.path".toList = some (File.data "/ndk/clang".toList) := by
        decide
      rw [hf, Option.some_bind, read_line_data _ _ (by omega), if_neg (by decide),
        List.take_of_length_le (by simp; omega)]
      decide
    · rw [h]
      have hf : demo_fs (some "/ndk/clang\n".toList) none none
          "/tools/clang-for-clapack.path".toList = some (File.data "/ndk/clang\n".toList) := by
        decide
      rw [hf, Option.some_bind, read_line_data _ _ (by omega), if_neg (by decide),
        List.take_of_length_le (by simp; omega)]
      decide
  have habsent : ∀ suffix, suffix = sysroot_suffix ∨ suffix = resource_suffix →
      ∀ q, path_file PATH_MAX demo_argv0 suffix = some q → w.fs q = none := by
    intro suffix hsuf q hqs
    rw [path_file_eq _ _ _ _ hqs]
    rcases hsuf with e | e <;> subst e <;> rcases hfs with h | h <;> rw [h] <;> decide
  have hc : clang PATH_MAX w (demo_argv0 :: ["-c".toList, "foo.c".toList, "-o".toList,
      "foo.o".toList]) = some "/ndk/clang".toList := by
    rw [clang_of_file PATH_MAX w _ _ (Or.inl henv), hread]
  have h1 := optional_buf_unset PATH_MAX w demo_argv0
    ["-c".toList, "foo.c".toList, "-o".toList, "foo.o".toList] sysroot_suffix
    (Or.inl (read_line_file_absent _ _ _ _ _ (habsent _ (Or.inl rfl))))
  have h2 := optional_buf_unset PATH_MAX w demo_argv0
    ["-c".toList, "foo.c".toList, "-o".toList, "foo.o".toList] resource_suffix
    (Or.inl (read_line_file_absent _ _ _ _ _ (habsent _ (Or.inr rfl))))
  show (main PATH_MAX w (demo_argv0 :: ["-c".toList, "foo.c".toList, "-o".toList,
      "foo.o".toList])).launch = _
  rw [main_resolved PATH_MAX w _ _ _ hc (by decide) hm, exec_clang_launch, h1, h2]
  rfl

/-- Witness of C8: the scenario with `PATH_MAX = 4096` in a world where `execv`
succeeds. -/
theorem C8_scenario_witness :
    (main 4096 (demo_world none (demo_fs (some "/ndk/clang".toList) none none))
        ["/tools/clang-for-clapack-launcher".toList, "-c".toList, "foo.c".toList,
          "-o".toList, "foo.o".toList]).launch =
      some ("/ndk/clang".toList, ["/ndk/clang".toList, "-target".toList,
        "aarch64-linux-android21".toList, "-c".toList, "foo.c".toList, "-o".toList,
        "foo.o".toList]) :=
  C8_scenario 4096 (demo_world none (demo_fs (some "/ndk/clang".toList) none none))
    (by decide) (by decide) (Or.inl rfl) rfl

/-- The vector with one optional setting, when the allocations succeed: for a
non-empty compiler path `p` resolved from the override or from the compiler-path
file, with `malloc` succeeding: when the sysroot file yields a non-empty line `s`
(and its `strdup` succeeds) while the resource-dir read fails or
yields an empty line, the vector is `[p, -target, triple, --sysroot, s]` followed
by the caller arguments; when the resource-dir file yields a non-empty line `r`
while the sysroot read fails or yields an empty line, the vector is
`[p, -target, triple, -resource-dir, r]` followed by the caller arguments. -/
theorem vector_of_one_optional_file (PATH_MAX : Nat) (w : World) (x : CStr)
    (rest : List CStr) (p : CStr)
    (hp : w.getenv env_name = some p
      ∨ ((w.getenv env_name = none ∨ w.getenv env_name = some [])
        ∧ read_line_file PATH_MAX w.fs x path_suffix PATH_MAX = some p))
    (hpne : p ≠ []) (hm : w.malloc_ok = true) :
    (∀ s, read_line_file PATH_MAX w.fs x sysroot_suffix PATH_MAX = some s → s ≠ [] →
        w.strdup_sysroot_ok = true →
        (read_line_file PATH_MAX w.fs x resource_suffix PATH_MAX = none
          ∨ read_line_file PATH_MAX w.fs x resource_suffix PATH_MAX = some []) →
        (main PATH_MAX w (x :: rest)).launch =
          some (p, [p, "-target".toList, "aarch64-linux-android21".toList,
            "--sysroot".toList, s] ++ rest))
    ∧ (∀ r, read_line_file PATH_MAX w.fs x resource_suffix PATH_MAX = some r → r ≠ [] →
        w.strdup_resource_ok = true →
        (read_line_file PATH_MAX w.fs x sysroot_suffix PATH_MAX = none
          ∨ read_line_file PATH_MAX w.fs x sysroot_suffix PATH_MAX = some []) →
        (main PATH_MAX w (x :: rest)).launch =
          some (p, [p, "-target".toList, "aarch64-linux-android21".toList,
            "-resource-dir".toList, r] ++ rest)) := by
  have hc : clang PATH_MAX w (x :: rest) = some p := by
    rcases hp with h | ⟨h, hr⟩
    · exact clang_of_env PATH_MAX w _ p h hpne
    · rw [clang_of_file PATH_MAX w x rest h, hr]
  constructor
  · intro s hs hsne hds hr
    rw [main_resolved PATH_MAX w x rest p hc hpne hm, exec_clang_launch,
      optional_buf_some PATH_MAX w x rest sysroot_suffix s hs hsne,
      optional_buf_unset PATH_MAX w x rest resource_suffix hr]
    simp [new_argv, argv_seen, argv_seen_map_some, target_triple, strdup, hds]
  · intro r hr hrne hdr hs
    rw [main_resolved PATH_MAX w x rest p hc hpne hm, exec_clang_launch,
      optional_buf_some PATH_MAX w x rest resource_suffix r hr hrne,
      optional_buf_unset PATH_MAX w x rest sysroot_suffix hs]
    simp [new_argv, argv_seen, argv_seen_map_some, target_triple, strdup, hdr]

/-- Instances of the vector with one optional setting: the override set, a sysroot file, and an empty resource-dir
file; and the compiler-path file with a resource-dir file and no sysroot file. -/
theorem vector_of_one_optional_file_example :
    (main 4096 (demo_world (some "/env/clang".toList)
        (demo_fs none (some "/ndk/sysroot\n".toList) (some []))) demo_argv).launch =
      some ("/env/clang".toList, ["/env/clang".toList, "-target".toList,
        "aarch64-linux-android21".toList, "--sysroot".toList, "/ndk/sysroot".toList]
          ++ ["-c".toList, "foo.c".toList, "-o".toList, "foo.o".toList])
    ∧ (main 4096 (demo_world none (demo_fs (some "/ndk/clang\n".toList) none
        (some "/ndk/lib/clang/17\n".toList))) demo_argv).launch =
      some ("/ndk/clang".toList, ["/ndk/clang".toList, "-target".toList,
        "aarch64-linux-android21".toList, "-resource-dir".toList, "/ndk/lib/clang/17".toList]
          ++ ["-c".toList, "foo.c".toList, "-o".toList, "foo.o".toList]) :=
  ⟨(vector_of_one_optional_file 4096 (demo_world (some "/env/clang".toList)
      (demo_fs none (some "/ndk/sysroot\n".toList) (some []))) demo_argv0
      ["-c".toList, "foo.c".toList, "-o".toList, "foo.o".toList] "/env/clang".toList
      (Or.inl (by decide)) (by decide) rfl).1 "/ndk/sysroot".toList (by decide) (by decide)
      rfl (Or.inl (by decide)),
    (vector_of_one_optional_file 4096 (demo_world none
      (demo_fs (some "/ndk/clang\n".toList) none (some "/ndk/lib/clang/17\n".toList)))
      demo_argv0 ["-c".toList, "foo.c".toList, "-o".toList, "foo.o".toList]
      "/ndk/clang".toList (Or.inr ⟨Or.inl (by decide), by decide⟩) (by decide) rfl).2
      "/ndk/lib/clang/17".toList (by decide) (by decide) rfl (Or.inl (by decide))⟩

/-- C10: whenever `main` itself terminates, its status is 127 and not 0; it does
so when the compiler path is missing, when `malloc` fails, and when the `execv`
call it made returns. -/
theorem C10_single_failure_status (PATH_MAX : Nat) (w : World) (argv : List CStr) :
    (∀ status, (main PATH_MAX w argv).outcome = Outcome.returned status →
        status = 127 ∧ status ≠ 0)
    ∧ (clang PATH_MAX w argv = none ∨ clang PATH_MAX w argv = some [] →
        (main PATH_MAX w argv).outcome = Outcome.returned 127)
    ∧ (∀ p, clang PATH_MAX w argv = some p → p ≠ [] → w.malloc_ok = false →
        (main PATH_MAX w argv).outcome = Outcome.returned 127)
    ∧ (∀ p v err, (main PATH_MAX w argv).launch = some (p, v) → w.execv p v = some err →
        (main PATH_MAX w argv).outcome = Outcome.returned 127) := by
  have hex : ∀ p v, (exec_clang w p v).outcome = Outcome.returned 127
      ∨ (exec_clang w p v).outcome = Outcome.replaced := by
    intro p v
    rw [exec_clang_outcome]
    cases w.execv p (argv_seen v) <;> simp
  refine ⟨?_, ?_, ?_, ?_⟩
  · intro status hst
    have h127 : (main PATH_MAX w argv).outcome = Outcome.returned 127 := by
      rcases main_cases PATH_MAX w argv with ⟨_, h⟩ | ⟨_, h⟩ | h | ⟨p, v, _, _, _, h⟩
      · rw [h]
      · rw [h]
      · rw [h] at hst
        exact absurd hst (by simp)
      · rw [h] at hst ⊢
        rcases hex p v with h2 | h2
        · exact h2
        · rw [h2] at hst
          exact absurd hst (by simp)
    rw [h127] at hst
    have : status = 127 := (Outcome.returned.inj hst).symm
    subst this
    exact ⟨rfl, by decide⟩
  · intro hc
    rw [main_unresolved PATH_MAX w argv hc]
  · intro p hc hpne hm
    rcases main_cases PATH_MAX w argv with ⟨h0, _⟩ | ⟨_, h⟩ | h | ⟨_, _, _, _, hm2, _⟩
    · rcases h0 with h0 | h0
      · rw [hc] at h0
        exact absurd h0 (by simp)
      · rw [hc] at h0
        exact absurd (Option.some.inj h0) hpne
    · rw [h]
    · exfalso
      cases p with
      | nil => exact hpne rfl
      | cons c cs =>
        unfold main at h
        simp only [hc, hm, Bool.not_false, if_true] at h
        exact absurd (congrArg Run.outcome h) (by simp)
    · rw [hm] at hm2
      exact absurd hm2 (by simp)
  · intro p v err hl hex2
    rcases main_cases PATH_MAX w argv with ⟨_, h⟩ | ⟨_, h⟩ | h | ⟨p2, v2, _, _, _, h⟩
    · rw [h]
    · rw [h]
    · rw [h] at hl
      exact absurd hl (by simp)
    · rw [h] at hl ⊢
      rw [exec_clang_launch] at hl
      have hpv : (p2, argv_seen v2) = (p, v) := Option.some.inj hl
      have hp2 : p2 = p := congrArg Prod.fst hpv
      have hv2 : argv_seen v2 = v := congrArg Prod.snd hpv
      rw [exec_clang_outcome, hp2, hv2, hex2]

/-- Witness of C10: the three failing runs (no compiler configuration, `malloc`
failure, `execv` failure) all return 127. -/
theorem C10_single_failure_status_witness :
    ((main 4096 (demo_world none (demo_fs none none none)) demo_argv).outcome
        = Outcome.returned 127 ∧ (127 : Nat) ≠ 0)
    ∧ (main 4096 { demo_world (some "/env/clang".toList) (demo_fs none none none) with
        malloc_ok := false } demo_argv).outcome = Outcome.returned 127
    ∧ (main 4096 { demo_world (some "/env/clang".toList) (demo_fs none none none) with
        execv := fun _ _ => some "No such file or directory".toList } demo_argv).outcome
        = Outcome.returned 127 :=
  ⟨⟨(C10_single_failure_status 4096 (demo_world none (demo_fs none none none)) demo_argv).2.1
      (Or.inl (by decide)),
    ((C10_single_failure_status 4096 (demo_world none (demo_fs none none none)) demo_argv).1
      127 (by decide)).2⟩,
    (C10_single_failure_status 4096 { demo_world (some "/env/clang".toList)
      (demo_fs none none none) with malloc_ok := false } demo_argv).2.2.1
      "/env/clang".toList (by decide) (by decide) rfl,
    (C10_single_failure_status 4096 { demo_world (some "/env/clang".toList)
      (demo_fs none none none) with
        execv := fun _ _ => some "No such file or directory".toList } demo_argv).2.2.2
      "/env/clang".toList
      ["/env/clang".toList, "-target".toList, "aarch64-linux-android21".toList, "-c".toList,
        "foo.c".toList, "-o".toList, "foo.o".toList]
      "No such file or directory".toList (by decide) rfl⟩

/-! ## The pre-flight check -/

theorem preflight_of_ok (w : World) (p : CStr) (h : preflight_ok w p = true) :
    preflight w p = [] := by
  unfold preflight_ok at h
  unfold preflight
  cases hs : w.stat p with
  | none =>
    rw [hs] at h
    exact absurd h (by simp)
  | some m =>
    rw [hs] at h
    simp only [Bool.and_eq_true] at h
    simp [h.1, h.2]

theorem preflight_of_not_ok (w : World) (p : CStr) (h : preflight_ok w p = false) :
    ∃ line, preflight w p = [line] := by
  unfold preflight_ok at h
  unfold preflight
  refine ⟨_, if_pos ?_⟩
  cases hs : w.stat p with
  | none => simp
  | some m =>
    rw [hs] at h
    simp only [Bool.and_eq_false_iff] at h
    rcases h with h | h
    · simp [h]
    · simp [h]

/-- The diagnostics of lines 84-85, printed when `execv` returns. -/
theorem exec_clang_stderr (w : World) (p : CStr) (v : List (Option CStr)) :
    (exec_clang w p v).stderr = preflight w p ++
      match w.execv p (argv_seen v) with
      | none => []
      | some err => ["clang-for-clapack: execv failed for path=\x27".toList ++ p
          ++ "\x27 ".toList, "(execv): ".toList ++ err ++ [NL]] := by
  unfold exec_clang
  cases w.execv p (argv_seen v) <;> simp

/-- Replacing `stat` changes neither the resolution nor the vector: the run is
still the `execv` step on the same path and the same `new_argv`. -/
theorem main_resolved_stat (PATH_MAX : Nat) (w : World) (stat2 : CStr → Option Nat)
    (x : CStr) (rest : List CStr) (p : CStr)
    (hc : clang PATH_MAX w (x :: rest) = some p) (hp : p ≠ []) (hm : w.malloc_ok = true) :
    main PATH_MAX { w with stat := stat2 } (x :: rest) =
      exec_clang { w with stat := stat2 } p
        (new_argv w p (optional_buf PATH_MAX w (x :: rest) sysroot_suffix)
          (optional_buf PATH_MAX w (x :: rest) resource_suffix) (x :: rest)) :=
  main_resolved PATH_MAX { w with stat := stat2 } x rest p hc hp hm

/-- C11: when the compiler path `p` is resolved, `argv[0]` is present and `malloc`
succeeds, then whatever `stat` answers the `execv` call is made on `p` with one and
the same vector, the run ends the same way, and standard error is the pre-flight
output followed by the same remaining diagnostics; the pre-flight output is empty
when the three checks pass and exactly one line when one of them fails. -/
theorem C11_preflight_is_advisory (PATH_MAX : Nat) (w : World) (x : CStr)
    (rest : List CStr) (p : CStr)
    (hc : clang PATH_MAX w (x :: rest) = some p) (hp : p ≠ []) (hm : w.malloc_ok = true) :
    ∃ v tail, ∀ stat2 : CStr → Option Nat,
      (main PATH_MAX { w with stat := stat2 } (x :: rest)).launch = some (p, v)
      ∧ (main PATH_MAX { w with stat := stat2 } (x :: rest)).outcome
          = (main PATH_MAX w (x :: rest)).outcome
      ∧ (main PATH_MAX { w with stat := stat2 } (x :: rest)).stderr
          = preflight { w with stat := stat2 } p ++ tail
      ∧ (preflight_ok { w with stat := stat2 } p = true →
          preflight { w with stat := stat2 } p = [])
      ∧ (preflight_ok { w with stat := stat2 } p = false →
          ∃ line, preflight { w with stat := stat2 } p = [line]) := by
  refine ⟨argv_seen (new_argv w p (optional_buf PATH_MAX w (x :: rest) sysroot_suffix)
      (optional_buf PATH_MAX w (x :: rest) resource_suffix) (x :: rest)),
    (match w.execv p (argv_seen (new_argv w p
        (optional_buf PATH_MAX w (x :: rest) sysroot_suffix)
        (optional_buf PATH_MAX w (x :: rest) resource_suffix) (x :: rest))) with
      | none => []
      | some err => ["clang-for-clapack: execv failed for path=\x27".toList ++ p
          ++ "\x27 ".toList, "(execv): ".toList ++ err ++ [NL]]), ?_⟩
  intro stat2
  rw [main_resolved_stat PATH_MAX w stat2 x rest p hc hp hm,
    main_resolved PATH_MAX w x rest p hc hp hm]
  refine ⟨exec_clang_launch _ _ _, ?_, exec_clang_stderr _ _ _, preflight_of_ok _ _,
    preflight_of_not_ok _ _⟩
  rw [exec_clang_outcome, exec_clang_outcome]

/-- Witness of C11: the compiler path read from the file, in a world whose `stat`
is then replaced at will. -/
theorem C11_preflight_is_advisory_witness :
    ∃ v tail, ∀ stat2 : CStr → Option Nat,
      (main 4096 { demo_world none (demo_fs (some "/ndk/clang\n".toList) none none) with
          stat := stat2 } (demo_argv0 :: ["-c".toList])).launch = some ("/ndk/clang".toList, v)
      ∧ (main 4096 { demo_world none (demo_fs (some "/ndk/clang\n".toList) none none) with
          stat := stat2 } (demo_argv0 :: ["-c".toList])).outcome
          = (main 4096 (demo_world none (demo_fs (some "/ndk/clang\n".toList) none none))
              (demo_argv0 :: ["-c".toList])).outcome
      ∧ (main 4096 { demo_world none (demo_fs (some "/ndk/clang\n".toList) none none) with
          stat := stat2 } (demo_argv0 :: ["-c".toList])).stderr
          = preflight { demo_world none (demo_fs (some "/ndk/clang\n".toList) none none) with
              stat := stat2 } "/ndk/clang".toList ++ tail
      ∧ (preflight_ok { demo_world none (demo_fs (some "/ndk/clang\n".toList) none none) with
            stat := stat2 } "/ndk/clang".toList = true →
          preflight { demo_world none (demo_fs (some "/ndk/clang\n".toList) none none) with
            stat := stat2 } "/ndk/clang".toList = [])
      ∧ (preflight_ok { demo_world none (demo_fs (some "/ndk/clang\n".toList) none none) with
            stat := stat2 } "/ndk/clang".toList = false →
          ∃ line, preflight { demo_world none (demo_fs (some "/ndk/clang\n".toList) none none)
            with stat := stat2 } "/ndk/clang".toList = [line]) :=
  C11_preflight_is_advisory 4096 (demo_world none (demo_fs (some "/ndk/clang\n".toList)
    none none)) demo_argv0 ["-c".toList] "/ndk/clang".toList (by decide) (by decide) rfl

/-! ## Where the compiler path comes from -/

/-- A `clang` pointer that is set comes from the override or, the override being
unset or empty, from a successful read of the compiler-path file. -/
theorem clang_source (PATH_MAX : Nat) (w : World) (argv : List CStr) (p : CStr)
    (hc : clang PATH_MAX w argv = some p) :
    w.getenv env_name = some p
    ∨ ((w.getenv env_name = none ∨ w.getenv env_name = some [])
      ∧ ∃ x, argv.head? = some x
        ∧ read_line_file PATH_MAX w.fs x path_suffix PATH_MAX = some p) := by
  by_cases henv : w.getenv env_name = none ∨ w.getenv env_name = some []
  · cases argv with
    | nil =>
      unfold clang at hc
      simp only [henv, if_true, List.head?_nil] at hc
      exact Or.inl hc
    | cons x rest =>
      rw [clang_of_file PATH_MAX w x rest henv] at hc
      cases hr : read_line_file PATH_MAX w.fs x path_suffix PATH_MAX with
      | none =>
        rw [hr] at hc
        exact Or.inl hc
      | some b =>
        rw [hr] at hc
        have hb : b = p := Option.some.inj hc
        subst hb
        exact Or.inr ⟨henv, x, rfl, hr⟩
  · unfold clang at hc
    simp only [henv, if_false] at hc
    exact Or.inl hc

/-- Two worlds that differ only in the environment and resolve the same `clang`
pointer give the same run. -/
theorem main_congr_env (PATH_MAX : Nat) (w : World) (g1 g2 : CStr → Option CStr)
    (argv : List CStr)
    (h : clang PATH_MAX { w with getenv := g1 } argv = clang PATH_MAX { w with getenv := g2 } argv) :
    main PATH_MAX { w with getenv := g1 } argv = main PATH_MAX { w with getenv := g2 } argv := by
  unfold main
  rw [h]
  rfl

/-- An environment with an empty override and one without the override give the
same run. -/
theorem main_empty_override (PATH_MAX : Nat) (w : World) (argv : List CStr)
    (g1 g2 : CStr → Option CStr) (h1 : g1 env_name = some []) (h2 : g2 env_name = none) :
    main PATH_MAX { w with getenv := g1 } argv = main PATH_MAX { w with getenv := g2 } argv := by
  have hw1 : ({ w with getenv := g1 } : World).getenv env_name = some [] := h1
  have hw2 : ({ w with getenv := g2 } : World).getenv env_name = none := h2
  cases argv with
  | nil =>
    rw [main_unresolved PATH_MAX { w with getenv := g1 } [] (Or.inr (by
        unfold clang
        simp [h1])),
      main_unresolved PATH_MAX { w with getenv := g2 } [] (Or.inl (by
        unfold clang
        simp [h2]))]
  | cons x rest =>
    have hc1 := clang_of_file PATH_MAX { w with getenv := g1 } x rest (Or.inr hw1)
    have hc2 := clang_of_file PATH_MAX { w with getenv := g2 } x rest (Or.inl hw2)
    cases hr : read_line_file PATH_MAX w.fs x path_suffix PATH_MAX with
    | none =>
      have hr1 : read_line_file PATH_MAX ({ w with getenv := g1 } : World).fs x path_suffix
          PATH_MAX = none := hr
      have hr2 : read_line_file PATH_MAX ({ w with getenv := g2 } : World).fs x path_suffix
          PATH_MAX = none := hr
      rw [hr1, hw1] at hc1
      rw [hr2, hw2] at hc2
      rw [main_unresolved PATH_MAX _ (x :: rest) (Or.inr hc1),
        main_unresolved PATH_MAX _ (x :: rest) (Or.inl hc2)]
    | some b =>
      have hr1 : read_line_file PATH_MAX ({ w with getenv := g1 } : World).fs x path_suffix
          PATH_MAX = some b := hr
      have hr2 : read_line_file PATH_MAX ({ w with getenv := g2 } : World).fs x path_suffix
          PATH_MAX = some b := hr
      rw [hr1] at hc1
      rw [hr2] at hc2
      apply main_congr_env
      rw [hc1, hc2]

/-- With an empty override, the path of an `execv` call is the line read from the
compiler-path sibling file. -/
theorem launch_of_empty_override (PATH_MAX : Nat) (w : World) (argv : List CStr)
    (g1 : CStr → Option CStr) (h1 : g1 env_name = some []) (p : CStr) (v : List CStr)
    (hl : (main PATH_MAX { w with getenv := g1 } argv).launch = some (p, v)) :
    ∃ x, argv.head? = some x ∧ read_line_file PATH_MAX w.fs x path_suffix PATH_MAX = some p := by
  have hw1 : ({ w with getenv := g1 } : World).getenv env_name = some [] := h1
  rcases main_cases PATH_MAX { w with getenv := g1 } argv
    with ⟨_, h⟩ | ⟨_, h⟩ | h | ⟨p2, v2, hc, hne, _, h⟩
  · rw [h] at hl
    exact absurd hl (by simp)
  · rw [h] at hl
    exact absurd hl (by simp)
  · rw [h] at hl
    exact absurd hl (by simp)
  · rw [h, exec_clang_launch] at hl
    have hp2 : p2 = p := congrArg Prod.fst (Option.some.inj hl)
    subst hp2
    rcases clang_source PATH_MAX _ argv p2 hc with h3 | ⟨_, x, hx, hr⟩
    · rw [hw1] at h3
      exact absurd (Option.some.inj h3).symm hne
    · exact ⟨x, hx, hr⟩

/-- C12: whenever `main` gets past the test of line 41 (its run is not the
missing-configuration exit), the compiler path `p` it goes on with is non-empty,
and it is the value of the override, or else the override is unset or empty and
`p` is the line read from the compiler-path sibling file; with a non-empty
override the resolved path is the same for every file system. -/
theorem C12_resolved_compiler_path (PATH_MAX : Nat) (w : World) (argv : List CStr)
    (hres : main PATH_MAX w argv ≠
      { stderr := [missing_config_msg], launch := none, outcome := Outcome.returned 127 }) :
    ∃ p, clang PATH_MAX w argv = some p ∧ p ≠ []
      ∧ (w.getenv env_name = some p
        ∨ ((w.getenv env_name = none ∨ w.getenv env_name = some [])
          ∧ ∃ x, argv.head? = some x
            ∧ read_line_file PATH_MAX w.fs x path_suffix PATH_MAX = some p))
      ∧ (∀ e, w.getenv env_name = some e → e ≠ [] →
          ∀ fs2 : FS, clang PATH_MAX { w with fs := fs2 } argv = some e) := by
  have hlast : ∀ e, w.getenv env_name = some e → e ≠ [] →
      ∀ fs2 : FS, clang PATH_MAX { w with fs := fs2 } argv = some e :=
    fun e he hne fs2 => clang_of_env PATH_MAX { w with fs := fs2 } argv e he hne
  cases hc : clang PATH_MAX w argv with
  | none => exact absurd (main_unresolved PATH_MAX w argv (Or.inl hc)) hres
  | some p =>
    cases p with
    | nil => exact absurd (main_unresolved PATH_MAX w argv (Or.inr hc)) hres
    | cons c cs =>
      exact ⟨c :: cs, rfl, List.cons_ne_nil c cs, clang_source PATH_MAX w argv _ hc, hlast⟩

/-- Witness of C12: an empty override with a compiler-path file. -/
theorem C12_resolved_compiler_path_witness :
    ∃ p, clang 4096 (demo_world (some []) (demo_fs (some "/ndk/clang\n".toList) none none))
        demo_argv = some p ∧ p ≠ []
      ∧ ((demo_world (some []) (demo_fs (some "/ndk/clang\n".toList) none none)).getenv
            env_name = some p
        ∨ (((demo_world (some []) (demo_fs (some "/ndk/clang\n".toList) none none)).getenv
              env_name = none
            ∨ (demo_world (some []) (demo_fs (some "/ndk/clang\n".toList) none none)).getenv
              env_name = some [])
          ∧ ∃ x, demo_argv.head? = some x
            ∧ read_line_file 4096
              (demo_world (some []) (demo_fs (some "/ndk/clang\n".toList) none none)).fs x
              path_suffix 4096 = some p))
      ∧ (∀ e, (demo_world (some []) (demo_fs (some "/ndk/clang\n".toList) none none)).getenv
            env_name = some e → e ≠ [] →
          ∀ fs2 : FS, clang 4096
            { demo_world (some []) (demo_fs (some "/ndk/clang\n".toList) none none) with
              fs := fs2 } demo_argv = some e) :=
  C12_resolved_compiler_path 4096
    (demo_world (some []) (demo_fs (some "/ndk/clang\n".toList) none none)) demo_argv
    (by decide)

/-- C13: a run with `CLAPACK_CLANG` set to the empty string is the same run (same
diagnostics, same `execv` path and vector, same outcome) as with the variable
unset, for every world and argument list; and the path of an `execv` call made in
such a run is the line read from the compiler-path sibling file. -/
theorem C13_empty_override_is_unset (PATH_MAX : Nat) (w : World) (argv : List CStr) :
    main PATH_MAX { w with getenv := fun name => if name = env_name then some [] else w.getenv name }
        argv =
      main PATH_MAX { w with getenv := fun name => if name = env_name then none else w.getenv name }
        argv
    ∧ ∀ p v, (main PATH_MAX
          { w with getenv := fun name => if name = env_name then some [] else w.getenv name }
          argv).launch = some (p, v) →
        ∃ x, argv.head? = some x
          ∧ read_line_file PATH_MAX w.fs x path_suffix PATH_MAX = some p := by
  exact ⟨main_empty_override PATH_MAX w argv _ _ (by simp) (by simp),
    fun p v hl => launch_of_empty_override PATH_MAX w argv _ (by simp) p v hl⟩

/-- Witness of C13: an empty override next to a compiler-path file. -/
theorem C13_empty_override_is_unset_witness :
    main 4096 { demo_world none (demo_fs (some "/ndk/clang\n".toList) none none) with
        getenv := fun name => if name = env_name then some []
          else (demo_world none (demo_fs (some "/ndk/clang\n".toList) none none)).getenv name }
        demo_argv =
      main 4096 { demo_world none (demo_fs (some "/ndk/clang\n".toList) none none) with
        getenv := fun name => if name = env_name then none
          else (demo_world none (demo_fs (some "/ndk/clang\n".toList) none none)).getenv name }
        demo_argv
    ∧ ∃ x, demo_argv.head? = some x
      ∧ read_line_file 4096 (demo_world none (demo_fs (some "/ndk/clang\n".toList) none none)).fs
          x path_suffix 4096 = some "/ndk/clang".toList :=
  ⟨(C13_empty_override_is_unset 4096
      (demo_world none (demo_fs (some "/ndk/clang\n".toList) none none)) demo_argv).1,
    (C13_empty_override_is_unset 4096
      (demo_world none (demo_fs (some "/ndk/clang\n".toList) none none)) demo_argv).2
      "/ndk/clang".toList
      ["/ndk/clang".toList, "-target".toList, "aarch64-linux-android21".toList, "-c".toList,
        "foo.c".toList, "-o".toList, "foo.o".toList] (by decide)⟩

/-! ## One bounded line -/

theorem takeWhile_take_comm (p : Char → Bool) (n : Nat) (l : List Char) :
    (l.take n).takeWhile p = (l.takeWhile p).take n := by
  induction n generalizing l with
  | zero => simp
  | succ n ih =>
    cases l with
    | nil => simp
    | cons a l =>
      simp only [List.take_succ_cons, List.takeWhile_cons]
      cases p a
      · simp
      · simp [ih l]

theorem take_takeWhile_of_le (p : Char → Bool) (n : Nat) (l : List Char)
    (h : n ≤ (l.takeWhile p).length) : (l.takeWhile p).take n = l.take n := by
  induction n generalizing l with
  | zero => simp
  | succ n ih =>
    cases l with
    | nil => simp
    | cons a l =>
      rw [List.takeWhile_cons] at h ⊢
      cases hp : p a
      · rw [hp] at h
        simp at h
      · rw [hp] at h
        simp only [if_true, List.length_cons, Nat.add_le_add_iff_right] at h
        simp [ih l h]

theorem takeWhile_in_line_newline (pre post : List Char) :
    (pre ++ NL :: post).takeWhile in_line = pre.takeWhile in_line := by
  induction pre with
  | nil => simp [in_line]
  | cons a pre ih => simp only [List.cons_append, List.takeWhile_cons, ih]

/-- The value of `read_line` on a readable stream, for every buffer size. -/
theorem read_line_eq (size : Nat) (bytes : List Char) :
    read_line size (File.data bytes) =
      if size = 0 then none
      else if size = 1 then some []
      else if bytes = [] then none
      else some ((bytes.takeWhile in_line).take (size - 1)) := by
  by_cases h0 : size = 0
  · subst h0
    rfl
  · by_cases h1 : size = 1
    · subst h1
      simp [read_line, fgets, strchr, cstr, NUL, NL]
    · rw [read_line_data size bytes (by omega), takeWhile_take_comm]
      simp [h0, h1]

theorem read_line_some (size : Nat) (bytes r : List Char)
    (h : read_line size (File.data bytes) = some r) :
    r = (bytes.takeWhile in_line).take (size - 1) := by
  rw [read_line_eq] at h
  by_cases h0 : size = 0
  · simp [h0] at h
  · by_cases h1 : size = 1
    · subst h1
      simp at h
      simp [← h]
    · by_cases hb : bytes = []
      · simp [h0, h1, hb] at h
      · simp only [h0, h1, hb, if_false] at h
        exact (Option.some.inj h).symm

/-- C14, as stated, fails: a file whose first line holds a NUL byte. The bytes are
`a`, NUL, `b`, newline; the read succeeds and leaves `a`, while the characters
before the first newline are `a`, NUL, `b`. -/
theorem C14_counterexample_nul_in_first_line :
    read_line_file 4096 (demo_fs (some ("a".toList ++ NUL :: "b".toList ++ [NL])) none none)
        demo_argv0 path_suffix 4096 = some "a".toList
    ∧ spec_first_line 4096 ("a".toList ++ NUL :: "b".toList ++ [NL])
        = "a".toList ++ NUL :: "b".toList
    ∧ read_line_file 4096 (demo_fs (some ("a".toList ++ NUL :: "b".toList ++ [NL])) none none)
        demo_argv0 path_suffix 4096
        ≠ some (spec_first_line 4096 ("a".toList ++ NUL :: "b".toList ++ [NL])) := by
  decide

/-- C14, amended: a sibling file read uses at most one line and at most `size - 1`
characters. On content `bytes`, a read with `size` at least 2 of a non-empty file
succeeds, and every successful read returns the characters before the first
newline or NUL byte, cut to at most `size - 1` characters; the result holds no
newline and at most `size - 1` characters, what follows the first newline of the
file does not matter, and a first line of `size - 1` or more characters is cut to
the first `size - 1` bytes of the file instead of being rejected. -/
theorem C14_read_one_bounded_line (PATH_MAX : Nat) (fs : FS) (x suffix q : CStr)
    (size : Nat) (bytes : List Char)
    (hq : path_file PATH_MAX x suffix = some q) (hf : fs q = some (File.data bytes)) :
    (2 ≤ size → bytes ≠ [] →
        read_line_file PATH_MAX fs x suffix size
          = some ((bytes.takeWhile in_line).take (size - 1)))
    ∧ (∀ r, read_line_file PATH_MAX fs x suffix size = some r →
        r = (bytes.takeWhile in_line).take (size - 1) ∧ NL ∉ r ∧ r.length ≤ size - 1)
    ∧ (∀ (pre post post2 : List Char) (fs2 : FS), bytes = pre ++ NL :: post →
        fs2 q = some (File.data (pre ++ NL :: post2)) →
        read_line_file PATH_MAX fs2 x suffix size = read_line_file PATH_MAX fs x suffix size)
    ∧ (2 ≤ size → size - 1 ≤ (bytes.takeWhile in_line).length →
        read_line_file PATH_MAX fs x suffix size = some (bytes.take (size - 1))) := by
  have hread : read_line_file PATH_MAX fs x suffix size = read_line size (File.data bytes) := by
    rw [read_line_file_at PATH_MAX fs x suffix q size hq, hf, Option.some_bind]
  have hsucc : 2 ≤ size → bytes ≠ [] →
      read_line_file PATH_MAX fs x suffix size
        = some ((bytes.takeWhile in_line).take (size - 1)) := by
    intro hs hb
    rw [hread, read_line_eq, if_neg (by omega), if_neg (by omega), if_neg hb]
  refine ⟨hsucc, ?_, ?_, ?_⟩
  · intro r hr
    rw [hread] at hr
    have hr2 := read_line_some size bytes r hr
    refine ⟨hr2, ?_, ?_⟩
    · intro hmem
      rw [hr2] at hmem
      have h2 := List.mem_takeWhile_imp (List.mem_of_mem_take hmem)
      simp [in_line] at h2
    · rw [hr2]
      exact List.length_take_le _ _
  · intro pre post post2 fs2 hb hf2
    rw [hread, read_line_file_at PATH_MAX fs2 x suffix q size hq, hf2, Option.some_bind,
      read_line_eq, read_line_eq, hb, takeWhile_in_line_newline, takeWhile_in_line_newline]
    simp
  · intro hs hlen
    have hb : bytes ≠ [] := by
      intro h
      subst h
      simp at hlen
      omega
    rw [hsucc hs hb, take_takeWhile_of_le in_line (size - 1) bytes hlen]

/-- Witness of C14: a second line that is ignored, and a first line longer than a
four-character buffer. -/
theorem C14_read_one_bounded_line_witness :
    read_line_file 4096 (demo_fs (some "/ndk/clang\n/other\n".toList) none none) demo_argv0
        path_suffix 4096
      = some (("/ndk/clang\n/other\n".toList.takeWhile in_line).take (4096 - 1))
    ∧ read_line_file 4096 (demo_fs (some "/ndk/clang\n/other\n".toList) none none) demo_argv0
        path_suffix 4 = some ("/ndk/clang\n/other\n".toList.take (4 - 1)) :=
  ⟨(C14_read_one_bounded_line 4096 (demo_fs (some "/ndk/clang\n/other\n".toList) none none)
      demo_argv0 path_suffix "/tools/clang-for-clapack.path".toList 4096
      "/ndk/clang\n/other\n".toList (by decide) (by decide)).1 (by decide) (by decide),
    (C14_read_one_bounded_line 4096 (demo_fs (some "/ndk/clang\n/other\n".toList) none none)
      demo_argv0 path_suffix "/tools/clang-for-clapack.path".toList 4
      "/ndk/clang\n/other\n".toList (by decide) (by decide)).2.2.2 (by decide) (by decide)⟩

/-! ## The size of `new_argv` -/

/-- With `argv[0]` present the stores of lines 54-70 fill the allocation exactly. -/
theorem slots_written_cons (PATH_MAX : Nat) (w : World) (p x : CStr) (rest : List CStr) :
    slots_written PATH_MAX w p (x :: rest) = slots_allocated PATH_MAX w (x :: rest) := by
  unfold slots_written slots_allocated extra
  rw [new_argv_length]
  simp only [List.length_cons]
  omega

/-- With `argc = 0` the stores of lines 54-70 need one slot more than allocated. -/
theorem slots_written_nil (PATH_MAX : Nat) (w : World) (p : CStr) :
    slots_written PATH_MAX w p [] = slots_allocated PATH_MAX w [] + 1 := by
  unfold slots_written slots_allocated extra
  rw [new_argv_length]
  simp only [List.length_nil]
  omega

/-- With `argc = 0`, a resolved compiler path and a successful `malloc`, the run
stores past the end of `new_argv`. -/
theorem main_overflow_nil (PATH_MAX : Nat) (w : World) (p : CStr)
    (hc : clang PATH_MAX w [] = some p) (hp : p ≠ []) (hm : w.malloc_ok = true) :
    main PATH_MAX w [] = { stderr := [], launch := none, outcome := Outcome.overflow } := by
  cases p with
  | nil => exact absurd rfl hp
  | cons c cs =>
    unfold main
    simp only [hc, hm, Bool.not_true, Bool.false_eq_true, if_false]
    rw [if_pos]
    rw [new_argv_length]
    simp only [List.length_nil]
    omega

/-- C15, evaluated where it fails: `argc = 0` (`argv[0]` null) with the override
set to `/env/clang`. The request is for `argc + extra = 3` slots, the stores of
lines 54-70 take 4 (offsets 0 to 3, the last one the null pointer of line 70), and
the run is a store past the end of `new_argv`. -/
theorem C15_overflow_without_arguments :
    slots_allocated 4096 (demo_world (some "/env/clang".toList) (demo_fs none none none)) [] = 3
    ∧ slots_written 4096 (demo_world (some "/env/clang".toList) (demo_fs none none none))
        "/env/clang".toList [] = 4
    ∧ clang 4096 (demo_world (some "/env/clang".toList) (demo_fs none none none)) []
        = some "/env/clang".toList
    ∧ main 4096 (demo_world (some "/env/clang".toList) (demo_fs none none none)) []
        = { stderr := [], launch := none, outcome := Outcome.overflow } := by
  decide

/-! ## Names that do not fit -/

theorem strrchr_lt (s : CStr) (c : Char) (i : Nat) (h : strrchr s c = some i) :
    i < s.length := by
  induction s generalizing i with
  | nil => simp [strrchr] at h
  | cons a s ih =>
    simp only [strrchr] at h
    cases hs : strrchr s c with
    | some j =>
      rw [hs] at h
      have hj := ih j hs
      have : j + 1 = i := Option.some.inj h
      simp only [List.length_cons]
      omega
    | none =>
      rw [hs] at h
      by_cases hac : a = c
      · simp only [hac, if_true] at h
        have : 0 = i := Option.some.inj h
        simp only [List.length_cons]
        omega
      · simp [hac] at h

theorem dir_len_le (x : CStr) : dir_len x ≤ x.length := by
  unfold dir_len
  cases h : strrchr x SLASH with
  | none => exact Nat.zero_le _
  | some i => exact strrchr_lt x SLASH i h

theorem path_file_too_long (PATH_MAX : Nat) (x suffix : CStr)
    (h : PATH_MAX ≤ dir_len x + strlen suffix) : path_file PATH_MAX x suffix = none := by
  unfold path_file
  simp only
  rw [if_pos h]

theorem read_line_file_too_long (PATH_MAX : Nat) (fs : FS) (x suffix : CStr) (size : Nat)
    (h : PATH_MAX ≤ dir_len x + strlen suffix) :
    read_line_file PATH_MAX fs x suffix size = none := by
  unfold read_line_file
  rw [path_file_too_long PATH_MAX x suffix h]

theorem dir_len_long_argv0 : dir_len long_argv0 = 4081 := by
  have h : SLASH ∉ "launcher".toList := by decide
  unfold long_argv0
  rw [dir_len_last _ _ h, List.length_replicate]

/-- C16: when `dir_len + suf_len >= PATH_MAX` no name is built and the read fails
for every file system, so the option read from that file is unset; without an
override `main` then returns 127 even if the compiler-path file exists, and with
an override and a sysroot name that does not fit the vector carries neither
optional flag pair. When `dir_len + suf_len < PATH_MAX` the name is the whole
directory part followed by the whole suffix. -/
theorem C16_name_too_long (PATH_MAX : Nat) (w : World) (x : CStr) (rest : List CStr)
    (suffix : CStr) :
    (PATH_MAX ≤ dir_len x + strlen suffix →
        path_file PATH_MAX x suffix = none
        ∧ (∀ (fs : FS) (size : Nat), read_line_file PATH_MAX fs x suffix size = none)
        ∧ optional_buf PATH_MAX w (x :: rest) suffix = none)
    ∧ (PATH_MAX ≤ dir_len x + strlen path_suffix →
        w.getenv env_name = none ∨ w.getenv env_name = some [] →
        main PATH_MAX w (x :: rest) =
          { stderr := [missing_config_msg], launch := none, outcome := Outcome.returned 127 })
    ∧ (∀ e, w.getenv env_name = some e → e ≠ [] →
        PATH_MAX ≤ dir_len x + strlen sysroot_suffix → w.malloc_ok = true →
        (main PATH_MAX w (x :: rest)).launch =
          some (e, [e, "-target".toList, "aarch64-linux-android21".toList] ++ rest))
    ∧ (dir_len x + strlen suffix < PATH_MAX →
        path_file PATH_MAX x suffix = some (x.take (dir_len x) ++ suffix)
        ∧ (x.take (dir_len x) ++ suffix).length = dir_len x + strlen suffix) := by
  refine ⟨?_, ?_, ?_, ?_⟩
  · intro h
    exact ⟨path_file_too_long PATH_MAX x suffix h,
      fun fs size => read_line_file_too_long PATH_MAX fs x suffix size h,
      optional_buf_unset PATH_MAX w x rest suffix
        (Or.inl (read_line_file_too_long PATH_MAX w.fs x suffix PATH_MAX h))⟩
  · intro h henv
    apply main_unresolved
    rw [clang_of_file PATH_MAX w x rest henv,
      read_line_file_too_long PATH_MAX w.fs x path_suffix PATH_MAX h]
    exact henv
  · intro e he hne h hm
    have hs : strlen sysroot_suffix = 25 := by decide
    have hr : strlen resource_suffix = 30 := by decide
    have h1 := optional_buf_unset PATH_MAX w x rest sysroot_suffix
      (Or.inl (read_line_file_too_long PATH_MAX w.fs x sysroot_suffix PATH_MAX h))
    have h2 := optional_buf_unset PATH_MAX w x rest resource_suffix
      (Or.inl (read_line_file_too_long PATH_MAX w.fs x resource_suffix PATH_MAX (by omega)))
    rw [main_resolved PATH_MAX w x rest e (clang_of_env PATH_MAX w _ e he hne) hne hm,
      exec_clang_launch, h1, h2]
    simp [new_argv, argv_seen, argv_seen_map_some, target_triple]
  · intro h
    constructor
    · unfold path_file
      simp only
      rw [if_neg (by omega)]
    · have hle := dir_len_le x
      simp only [List.length_append, List.length_take, strlen]
      omega

/-- Witness of C16: a directory part of 4081 characters with `PATH_MAX = 4096`, in
a file system where every name opens a file; and the launcher in `/tools`, whose
sibling name is built in full. -/
theorem C16_name_too_long_witness :
    (path_file 4096 long_argv0 path_suffix = none
      ∧ (∀ (fs : FS) (size : Nat), read_line_file 4096 fs long_argv0 path_suffix size = none)
      ∧ optional_buf 4096 (demo_world none full_fs) (long_argv0 :: ["-c".toList]) path_suffix
          = none)
    ∧ main 4096 (demo_world none full_fs) (long_argv0 :: ["-c".toList]) =
        { stderr := [missing_config_msg], launch := none, outcome := Outcome.returned 127 }
    ∧ (main 4096 (demo_world (some "/env/clang".toList) full_fs)
          (long_argv0 :: ["-c".toList])).launch =
        some ("/env/clang".toList,
          ["/env/clang".toList, "-target".toList, "aarch64-linux-android21".toList]
            ++ ["-c".toList])
    ∧ (path_file 4096 demo_argv0 path_suffix
          = some (demo_argv0.take (dir_len demo_argv0) ++ path_suffix)
      ∧ (demo_argv0.take (dir_len demo_argv0) ++ path_suffix).length
          = dir_len demo_argv0 + strlen path_suffix) :=
  ⟨(C16_name_too_long 4096 (demo_world none full_fs) long_argv0 ["-c".toList] path_suffix).1
      (by rw [dir_len_long_argv0]; decide),
    (C16_name_too_long 4096 (demo_world none full_fs) long_argv0 ["-c".toList]
      path_suffix).2.1 (by rw [dir_len_long_argv0]; decide) (Or.inl (by decide)),
    (C16_name_too_long 4096 (demo_world (some "/env/clang".toList) full_fs) long_argv0
      ["-c".toList] path_suffix).2.2.1 "/env/clang".toList (by decide) (by decide)
      (by rw [dir_len_long_argv0]; decide) rfl,
    (C16_name_too_long 4096 (demo_world none full_fs) demo_argv0 ["-c".toList]
      path_suffix).2.2.2 (by decide)⟩

/-! ## The unchecked `strdup` results -/

/-- C2, evaluated where it fails: the three sibling files hold `/ndk/clang`,
`/ndk/sysroot` and `/ndk/lib/clang/17`, `malloc` succeeds and `strdup(sysroot_buf)`
returns a null pointer. The three reads yield the three non-empty lines, the null
pointer is stored at `new_argv[4]`, and `execv` is given the vector
`[/ndk/clang, -target, aarch64-linux-android21, --sysroot]`: the sysroot value, the
resource-dir pair and every caller argument are cut off. When instead
`strdup(resource_buf)` returns a null pointer the vector ends with `-resource-dir`
without its value. -/
theorem C2_strdup_failure_cuts_vector :
    read_line_file 4096 (demo_fs (some "/ndk/clang\n".toList) (some "/ndk/sysroot\n".toList)
        (some "/ndk/lib/clang/17\n".toList)) demo_argv0 path_suffix 4096
      = some "/ndk/clang".toList
    ∧ read_line_file 4096 (demo_fs (some "/ndk/clang\n".toList) (some "/ndk/sysroot\n".toList)
        (some "/ndk/lib/clang/17\n".toList)) demo_argv0 sysroot_suffix 4096
      = some "/ndk/sysroot".toList
    ∧ read_line_file 4096 (demo_fs (some "/ndk/clang\n".toList) (some "/ndk/sysroot\n".toList)
        (some "/ndk/lib/clang/17\n".toList)) demo_argv0 resource_suffix 4096
      = some "/ndk/lib/clang/17".toList
    ∧ (main 4096 { demo_world none (demo_fs (some "/ndk/clang\n".toList)
          (some "/ndk/sysroot\n".toList) (some "/ndk/lib/clang/17\n".toList)) with
        strdup_sysroot_ok := false } demo_argv).launch
      = some ("/ndk/clang".toList, ["/ndk/clang".toList, "-target".toList,
          "aarch64-linux-android21".toList, "--sysroot".toList])
    ∧ (main 4096 { demo_world none (demo_fs (some "/ndk/clang\n".toList)
          (some "/ndk/sysroot\n".toList) (some "/ndk/lib/clang/17\n".toList)) with
        strdup_sysroot_ok := false } demo_argv).launch
      ≠ some ("/ndk/clang".toList, ["/ndk/clang".toList, "-target".toList,
          "aarch64-linux-android21".toList, "--sysroot".toList, "/ndk/sysroot".toList,
          "-resource-dir".toList, "/ndk/lib/clang/17".toList]
          ++ ["-c".toList, "foo.c".toList, "-o".toList, "foo.o".toList])
    ∧ (main 4096 { demo_world none (demo_fs (some "/ndk/clang\n".toList)
          (some "/ndk/sysroot\n".toList) (some "/ndk/lib/clang/17\n".toList)) with
        strdup_resource_ok := false } demo_argv).launch
      = some ("/ndk/clang".toList, ["/ndk/clang".toList, "-target".toList,
          "aarch64-linux-android21".toList, "--sysroot".toList, "/ndk/sysroot".toList,
          "-resource-dir".toList]) := by
  decide

/-- C9, evaluated where it fails: the override is `/env/clang`, only the sysroot
file yields a non-empty line (the resource-dir file is empty), `malloc` succeeds
and `strdup(sysroot_buf)` returns a null pointer: `execv` is given
`[/env/clang, -target, aarch64-linux-android21, --sysroot]`, without the sysroot
value and without the caller arguments. Likewise with the compiler path from the
file, only the resource-dir file present and `strdup(resource_buf)` returning a
null pointer: the vector is `[/ndk/clang, -target, aarch64-linux-android21,
-resource-dir]`. -/
theorem C9_strdup_failure_cuts_vector :
    read_line_file 4096 (demo_fs none (some "/ndk/sysroot\n".toList) (some [])) demo_argv0
        sysroot_suffix 4096 = some "/ndk/sysroot".toList
    ∧ read_line_file 4096 (demo_fs none (some "/ndk/sysroot\n".toList) (some [])) demo_argv0
        resource_suffix 4096 = none
    ∧ (main 4096 { demo_world (some "/env/clang".toList)
          (demo_fs none (some "/ndk/sysroot\n".toList) (some [])) with
        strdup_sysroot_ok := false } demo_argv).launch
      = some ("/env/clang".toList, ["/env/clang".toList, "-target".toList,
          "aarch64-linux-android21".toList, "--sysroot".toList])
    ∧ (main 4096 { demo_world (some "/env/clang".toList)
          (demo_fs none (some "/ndk/sysroot\n".toList) (some [])) with
        strdup_sysroot_ok := false } demo_argv).launch
      ≠ some ("/env/clang".toList, ["/env/clang".toList, "-target".toList,
          "aarch64-linux-android21".toList, "--sysroot".toList, "/ndk/sysroot".toList]
          ++ ["-c".toList, "foo.c".toList, "-o".toList, "foo.o".toList])
    ∧ read_line_file 4096 (demo_fs (some "/ndk/clang\n".toList) none
        (some "/ndk/lib/clang/17\n".toList)) demo_argv0 resource_suffix 4096
      = some "/ndk/lib/clang/17".toList
    ∧ (main 4096 { demo_world none (demo_fs (some "/ndk/clang\n".toList) none
          (some "/ndk/lib/clang/17\n".toList)) with
        strdup_resource_ok := false } demo_argv).launch
      = some ("/ndk/clang".toList, ["/ndk/clang".toList, "-target".toList,
          "aarch64-linux-android21".toList, "-resource-dir".toList])
    ∧ (main 4096 { demo_world none (demo_fs (some "/ndk/clang\n".toList) none
          (some "/ndk/lib/clang/17\n".toList)) with
        strdup_resource_ok := false } demo_argv).launch
      ≠ some ("/ndk/clang".toList, ["/ndk/clang".toList, "-target".toList,
          "aarch64-linux-android21".toList, "-resource-dir".toList,
          "/ndk/lib/clang/17".toList]
          ++ ["-c".toList, "foo.c".toList, "-o".toList, "foo.o".toList]) := by
  decide

end ClangForClapack
